import Mathlib

/-!
# Task Manager: ownership-scoped task routes and client task-list state

A shallow embedding of

* `backend/routes/taskRoutes.js` (the four `/api/tasks` route handlers),
* `backend/middleware/validation.js` (`validateRegistration`, `validateTaskInput`),
* `frontend/src/hooks/useTasks.js` and `frontend/src/services/taskService.js`
  (the client task list and its three mutating operations),
* the overdue predicate and the category split of
  `frontend/src/components/{Dashboard,Tasks,TaskCard}.jsx`, the displayed list
  and `onDelete` of `Dashboard.jsx`, the task forms
  (`TaskFormModal.jsx`, `TaskForm.jsx`) and the 401 interceptor of
  `frontend/src/contexts/AuthContext.jsx`,

followed by the properties proved about them.

Conventions.  The document store is a list of task documents; `findOne`,
`findById...` pick the first document that matches, as a collection with
unique `_id`s does.  Database calls are total functions of the store; the only
failure that is modelled is schema validation of a written document, which is
a parameter because `models/Task.js` is not among the sources.  Times are
integers: milliseconds since the epoch, the time value of a JavaScript `Date`.
What the validators ask of the JavaScript engine (date parsing, the e-mail
pattern) is a parameter too, `Engine`; `exampleEngine` runs the examples.
-/

namespace TaskManager

/-! ## JavaScript values -/

/-- A JSON-like JavaScript value as it appears in `req.body` and `req.query`.
Arrays and nested objects are kept opaque (`object`): the code below only
tests them for truthiness and stores them. -/
inductive JsVal where
  | undefined
  | null
  | bool (b : Bool)
  | num (n : Int)
  | str (s : String)
  | object (tag : String)
deriving DecidableEq, Repr

namespace JsVal

/-- JavaScript truthiness (`if (v)`, `v || w`). -/
def truthy : JsVal → Bool
  | undefined => false
  | null => false
  | bool b => b
  | num n => n != 0
  | str s => s != ""
  | object _ => true

/-- JavaScript `a || b`. -/
def or (a b : JsVal) : JsVal := if a.truthy then a else b

end JsVal

/-- A request body or query object: property list, first binding wins. -/
abbrev JsObject := List (String × JsVal)

/-- Property read `obj.key`; `undefined` when the property is absent. -/
def JsObject.get (o : JsObject) (key : String) : JsVal :=
  (o.lookup key).getD JsVal.undefined

/-! ## Backend: `routes/taskRoutes.js` -/

namespace TaskRoutes

/-- A stored task document.  The five editable fields hold the values the
handlers write; `user` is the owner reference. -/
structure Task where
  _id : String
  title : JsVal
  description : JsVal
  dueDate : JsVal
  priority : JsVal
  status : JsVal
  user : String
  createdAt : Int
deriving DecidableEq, Repr

/-- The part of a user document that `.populate('user', 'name email')` selects. -/
structure User where
  _id : String
  name : String
  email : String
deriving DecidableEq, Repr

/-- A task whose `user` reference has been populated (`null` when the owner
document does not exist). -/
structure PopulatedTask where
  task : Task
  user : Option User
deriving DecidableEq, Repr

/-- The database: the task collection and the user collection. -/
structure Db where
  tasks : List Task
  users : List User
deriving DecidableEq, Repr

/-- The `data` member of a response envelope. -/
inductive Payload where
  | absent
  | task (t : Option PopulatedTask)
  | tasks (ts : List PopulatedTask)
deriving DecidableEq, Repr

/-- What a handler sends: `res.status(status).json({success, message, data, error})`. -/
structure Response where
  status : Nat
  success : Bool
  message : Option String
  data : Payload
  error : Option String
deriving DecidableEq, Repr

/-- `.populate('user', 'name email')`. -/
def populate (db : Db) (t : Task) : PopulatedTask :=
  { task := t, user := db.users.find? (fun u => u._id == t.user) }

/-- `Task.findOne({ _id: id, user: caller })`. -/
def findOne (db : Db) (id caller : String) : Option Task :=
  db.tasks.find? (fun t => t._id == id && t.user == caller)

/-- `Task.findById(id)`. -/
def findById (db : Db) (id : String) : Option Task :=
  db.tasks.find? (fun t => t._id == id)

/-- The update document of the PUT handler:
`{ title, description: description || '', dueDate, priority, status }`. -/
structure TaskUpdate where
  title : JsVal
  description : JsVal
  dueDate : JsVal
  priority : JsVal
  status : JsVal
deriving DecidableEq, Repr

/-- Writing an update document into a task: the five keys of the update
document are set, every other path of the stored document is kept. -/
def TaskUpdate.applyTo (u : TaskUpdate) (t : Task) : Task :=
  { t with title := u.title, description := u.description, dueDate := u.dueDate,
           priority := u.priority, status := u.status }

/-- Replace the first document whose `_id` is `id` by `f` of it. -/
def updateFirst (id : String) (f : Task → Task) : List Task → List Task
  | [] => []
  | t :: ts => if t._id == id then f t :: ts else t :: updateFirst id f ts

/-- Remove the first document whose `_id` is `id`. -/
def deleteFirst (id : String) : List Task → List Task
  | [] => []
  | t :: ts => if t._id == id then ts else t :: deleteFirst id ts

/-- The 404 response shared by PUT and DELETE. -/
def notFound : Response :=
  { status := 404, success := false, message := some "Task not found or unauthorized",
    data := Payload.absent, error := none }

/-- The rejections of the database calls that the `catch` blocks of the PUT
and DELETE handlers answer with 400.  `lookup id` is the error
`Task.findOne({ _id: id, user })` rejects with (a cast error for an id that is
no object id, or no connection to the database), `remove id` the error
`Task.findByIdAndDelete(id)` rejects with; `none` when the call runs. -/
structure DbErrors where
  lookup : String → Option String
  remove : String → Option String

/-- The handler of `router.put('/:id', validateTaskInput, async (req, res) => ...)`,
run after the validation middleware has called `next()`.
`schemaError` is the schema validation that `runValidators: true` requests
(the message of the error it throws, `none` when the document passes). -/
def putHandler (errors : DbErrors) (schemaError : Task → Option String) (db : Db)
    (caller id : String) (body : JsObject) : Response × Db :=
  let title := body.get "title"
  let description := body.get "description"
  let dueDate := body.get "dueDate"
  let priority := body.get "priority"
  let status := body.get "status"
  match errors.lookup id with
  | some msg =>
    ({ status := 400, success := false, message := some "Error updating task",
       data := Payload.absent, error := some msg }, db)
  | none =>
    match findOne db id caller with
    | none => (notFound, db)
    | some _ =>
      let upd : TaskUpdate :=
        { title := title, description := description.or (JsVal.str ""), dueDate := dueDate,
          priority := priority, status := status }
      match findById db id with
      | none =>
        ({ status := 200, success := true, message := some "Task updated successfully",
           data := Payload.task none, error := none }, db)
      | some old =>
        match schemaError (upd.applyTo old) with
        | some msg =>
          ({ status := 400, success := false, message := some "Error updating task",
             data := Payload.absent, error := some msg }, db)
        | none =>
          let db2 : Db := { db with tasks := updateFirst id upd.applyTo db.tasks }
          ({ status := 200, success := true, message := some "Task updated successfully",
             data := Payload.task (some (populate db2 (upd.applyTo old))), error := none }, db2)

/-- The DELETE handler up to the end of its first awaited call,
`Task.findOne({ _id: id, user })`: the response it sends when it stops there
(400 from the `catch` block, or 404), `none` when it goes on to delete. -/
def deleteLookup (errors : DbErrors) (db : Db) (caller id : String) : Option Response :=
  match errors.lookup id with
  | some msg =>
    some { status := 400, success := false, message := some "Error deleting task",
           data := Payload.absent, error := some msg }
  | none =>
    match findOne db id caller with
    | none => some notFound
    | some _ => none

/-- The DELETE handler from its second awaited call on:
`await Task.findByIdAndDelete(id)`, whose result it does not read, and the 200
response (400 from the `catch` block when the call rejects). -/
def deleteRemove (errors : DbErrors) (db : Db) (id : String) : Response × Db :=
  match errors.remove id with
  | some msg =>
    ({ status := 400, success := false, message := some "Error deleting task",
       data := Payload.absent, error := some msg }, db)
  | none =>
    ({ status := 200, success := true, message := some "Task deleted successfully",
       data := Payload.absent, error := none },
     { db with tasks := deleteFirst id db.tasks })

/-- The handler of `router.delete('/:id', async (req, res) => ...)`, run with
no other request between its two awaited calls. -/
def deleteHandler (errors : DbErrors) (db : Db) (caller id : String) : Response × Db :=
  match deleteLookup errors db caller id with
  | some response => (response, db)
  | none => deleteRemove errors db id

/-- Two DELETE requests of the same caller for the same id that overlap: both
lookups are answered from the store before either removal runs.  The two
responses and the store afterwards. -/
def overlappingDeletes (errors : DbErrors) (db : Db) (caller id : String) :
    Response × Response × Db :=
  match deleteLookup errors db caller id, deleteLookup errors db caller id with
  | some r1, some r2 => (r1, r2, db)
  | some r1, none => (r1, (deleteRemove errors db id).1, (deleteRemove errors db id).2)
  | none, some r2 => ((deleteRemove errors db id).1, r2, (deleteRemove errors db id).2)
  | none, none =>
    ((deleteRemove errors db id).1,
      (deleteRemove errors (deleteRemove errors db id).2 id).1,
      (deleteRemove errors (deleteRemove errors db id).2 id).2)

/-- Whether a string is written as 24 hexadecimal digits, the form of an object id. -/
def isObjectId (id : String) : Bool :=
  id.data.length == 24 &&
    id.data.all (fun c => (48 ≤ c.toNat && c.toNat ≤ 57) || (65 ≤ c.toNat && c.toNat ≤ 70) ||
      (97 ≤ c.toNat && c.toNat ≤ 102))

/-- No database call rejects. -/
def noDbErrors : DbErrors := { lookup := fun _ => none, remove := fun _ => none }

/-- The database calls reject an id that is not written as an object id with a
cast error, and run otherwise. -/
def castErrors : DbErrors :=
  { lookup := fun id => if isObjectId id then none else some "Cast to ObjectId failed",
    remove := fun id => if isObjectId id then none else some "Cast to ObjectId failed" }

/-- The handler of `router.post('/', validateTaskInput, async (req, res) => ...)`,
run after the validation middleware has called `next()`.  `freshId` and `now`
are the `_id` and creation time the database assigns on `save()`;
`schemaError` is the schema validation `save()` runs. -/
def postHandler (schemaError : Task → Option String) (freshId : String) (now : Int)
    (db : Db) (caller : String) (body : JsObject) : Response × Db :=
  let title := body.get "title"
  let description := body.get "description"
  let dueDate := body.get "dueDate"
  let priority := body.get "priority"
  let status := body.get "status"
  let newTask : Task :=
    { _id := freshId, title := title, description := description.or (JsVal.str ""),
      dueDate := dueDate, priority := priority, status := status.or (JsVal.str "Pending"),
      user := caller, createdAt := now }
  match schemaError newTask with
  | some msg =>
    ({ status := 400, success := false, message := some "Error creating task",
       data := Payload.absent, error := some msg }, db)
  | none =>
    let db2 : Db := { db with tasks := db.tasks ++ [newTask] }
    ({ status := 201, success := true, message := some "Task created successfully",
       data := Payload.task ((findById db2 freshId).map (populate db2)), error := none }, db2)

/-! ### `GET /api/tasks`: the filter object -/

/-- One alternative `{ field: { $regex: regex, $options: options } }` of `$or`. -/
structure RegexCond where
  field : String
  regex : JsVal
  options : String
deriving DecidableEq, Repr

/-- The value bound to a key of the filter object. -/
inductive Constraint where
  | owner (id : String)
  | equals (v : JsVal)
  | anyOf (alts : List RegexCond)
deriving DecidableEq, Repr

/-- The filter object handed to `Task.find`: its keys in insertion order. -/
abbrev Filter := List (String × Constraint)

/-- Lines 13-25 of the GET handler: the filter built from `req.user._id` and
`req.query`. -/
def getFilter (caller : String) (query : JsObject) : Filter :=
  let status := query.get "status"
  let priority := query.get "priority"
  let search := query.get "search"
  let filter : Filter := [("user", Constraint.owner caller)]
  let filter := if status.truthy then filter ++ [("status", Constraint.equals status)] else filter
  let filter :=
    if priority.truthy then filter ++ [("priority", Constraint.equals priority)] else filter
  let filter :=
    if search.truthy then
      filter ++ [("$or", Constraint.anyOf
        [{ field := "title", regex := search, options := "i" },
         { field := "description", regex := search, options := "i" }])]
    else filter
  filter

/-- The matching primitives of the database: whether a stored value satisfies
a query value, and whether it matches a regular expression with options. -/
structure QueryOps where
  valueMatches : JsVal → JsVal → Bool
  regexMatches : JsVal → String → JsVal → Bool

/-- Read a path of a task document. -/
def Task.field (t : Task) (key : String) : JsVal :=
  if key = "title" then t.title
  else if key = "description" then t.description
  else if key = "dueDate" then t.dueDate
  else if key = "priority" then t.priority
  else if key = "status" then t.status
  else JsVal.undefined

/-- Whether a document satisfies the constraint bound to `key`. -/
def Constraint.holds (ops : QueryOps) (key : String) (t : Task) : Constraint → Bool
  | Constraint.owner id => t.user == id
  | Constraint.equals v => ops.valueMatches v (t.field key)
  | Constraint.anyOf alts =>
    alts.any (fun a => ops.regexMatches a.regex a.options (t.field a.field))

/-- A document matches a filter object when it satisfies every key of it. -/
def Filter.matches (ops : QueryOps) (f : Filter) (t : Task) : Bool :=
  f.all (fun kc => kc.2.holds ops kc.1 t)

/-- `Task.find(filter)` before sorting. -/
def find (ops : QueryOps) (db : Db) (f : Filter) : List Task :=
  db.tasks.filter (fun t => Filter.matches ops f t)

end TaskRoutes

/-! ## Frontend -/

namespace Frontend

/-- A task as the client holds it (one element of `response.data.data`).
`dueDate` is the time value of `new Date(task.dueDate)`: milliseconds since the
epoch, `none` for an Invalid Date (NaN). -/
structure Task where
  _id : String
  title : String
  description : String
  dueDate : Option Int
  priority : String
  status : String
deriving DecidableEq, Repr

/-- The wall clock of the browser: the current instant in milliseconds since
the epoch and the offset of local time from UTC in minutes (local = UTC +
`tzMinutes`; `-300` is UTC-5). -/
structure Clock where
  now : Int
  tzMinutes : Int
deriving DecidableEq, Repr

/-- Milliseconds in a day. -/
def msPerDay : Int := 86400000

/-- The local calendar date of the clock, as a day number since 1970-01-01. -/
def Clock.localDate (c : Clock) : Int := (c.now + c.tzMinutes * 60000) / msPerDay

/-- `const today = new Date(); today.setHours(0, 0, 0, 0)`: the instant of local
midnight at the start of the current local day. -/
def Clock.today (c : Clock) : Int := c.localDate * msPerDay - c.tzMinutes * 60000

/-- JavaScript `a < b` on two dates, `false` when `a` is an Invalid Date. -/
def dateLt (a : Option Int) (b : Int) : Bool :=
  match a with
  | none => false
  | some x => decide (x < b)

/-- JavaScript `a - b` on two dates or numbers, `none` (NaN) when either is NaN. -/
def numSub (a b : Option Int) : Option Int :=
  match a, b with
  | some x, some y => some (x - y)
  | _, _ => none

/-- `Array.prototype.sort` step: put `a` into an already sorted list, before the
first element it does not compare greater than (a NaN comparison counts as 0). -/
def insertSorted {α : Type} (cmp : α → α → Option Int) (a : α) : List α → List α
  | [] => [a]
  | b :: bs => if (cmp a b).getD 0 ≤ 0 then a :: b :: bs else b :: insertSorted cmp a bs

/-- `Array.prototype.sort(cmp)`, as a stable insertion sort.  For a consistent
comparator this is the order the language prescribes (the sort is stable); for
an inconsistent one (differences that are NaN) the language leaves the order
to the engine, and the properties below use only that the result rearranges
the input. -/
def jsSort {α : Type} (cmp : α → α → Option Int) : List α → List α
  | [] => []
  | a :: as => insertSorted cmp a (jsSort cmp as)

/-- `String.prototype.toLowerCase`, giving the characters of the result.  Only
the ASCII letters are mapped; the case mapping of other characters is not
modelled. -/
def toLowerCase (s : String) : List Char := s.data.map Char.toLower

/-- Whether `pat` starts `s`. -/
def startsWith : List Char → List Char → Bool
  | _, [] => true
  | [], _ :: _ => false
  | c :: cs, p :: ps => c == p && startsWith cs ps

/-- `String.prototype.includes`: whether `pat` occurs in `s`. -/
def includes : List Char → List Char → Bool
  | [], pat => pat.isEmpty
  | c :: cs, pat => startsWith (c :: cs) pat || includes cs pat

/-! ### The overdue predicate, as written in three components -/

namespace Dashboard

/-- `isTaskOverdue` of `Dashboard.jsx`. -/
def isTaskOverdue (clock : Clock) (task : Task) : Bool :=
  let dueDate := task.dueDate
  let today := clock.today
  dateLt dueDate today && task.status != "Completed"

end Dashboard

namespace TaskCard

/-- `isOverdue` of `TaskCard.jsx`, for the card's `task` prop. -/
def isOverdue (clock : Clock) (task : Task) : Bool :=
  let dueDate := task.dueDate
  let today := clock.today
  dateLt dueDate today && task.status != "Completed"

end TaskCard

/-! ### `components/Tasks.jsx` -/

namespace Tasks

/-- `isTaskOverdue` of `Tasks.jsx`. -/
def isTaskOverdue (clock : Clock) (task : Task) : Bool :=
  let dueDate := task.dueDate
  let today := clock.today
  dateLt dueDate today && task.status != "Completed"

/-- The search filter of `getTasksByCategory`. -/
def matchesSearch (searchTerm : String) (task : Task) : Bool :=
  includes (toLowerCase task.title) (toLowerCase searchTerm) ||
    (task.description != "" && includes (toLowerCase task.description) (toLowerCase searchTerm))

/-- `priorityOrder[p]` for `{ 'High': 3, 'Medium': 2, 'Low': 1 }`; `none` is
`undefined`, which makes the difference NaN. -/
def priorityOrder (p : String) : Option Int :=
  if p = "High" then some 3 else if p = "Medium" then some 2 else if p = "Low" then some 1
  else none

/-- The comparator handed to `allTasks.sort`. -/
def compareTasks (sortBy : String) (a b : Task) : Option Int :=
  if sortBy = "dueDate" then numSub a.dueDate b.dueDate
  else if sortBy = "priority" then numSub (priorityOrder b.priority) (priorityOrder a.priority)
  else some 0

/-- `allTasks` after the search and the priority filter, before sorting. -/
def filteredTasks (tasks : List Task) (searchTerm priorityFilter : String) : List Task :=
  let allTasks := tasks
  let allTasks := if searchTerm != "" then allTasks.filter (matchesSearch searchTerm) else allTasks
  let allTasks :=
    if priorityFilter != "All" then allTasks.filter (fun task => task.priority == priorityFilter)
    else allTasks
  allTasks

/-- The object `getTasksByCategory` returns. -/
structure Categories where
  active : List Task
  overdue : List Task
  completed : List Task
  total : Nat
deriving DecidableEq, Repr

/-- `getTasksByCategory` of `Tasks.jsx`; the component state it reads
(`tasks`, `searchTerm`, `priorityFilter`, `sortBy`) and the clock are arguments. -/
def getTasksByCategory (clock : Clock) (tasks : List Task)
    (searchTerm priorityFilter sortBy : String) : Categories :=
  let allTasks := jsSort (compareTasks sortBy) (filteredTasks tasks searchTerm priorityFilter)
  let activeTasks :=
    allTasks.filter (fun task => task.status != "Completed" && !isTaskOverdue clock task)
  let overdueTasks := allTasks.filter (fun task => isTaskOverdue clock task)
  let completedTasks := allTasks.filter (fun task => task.status == "Completed")
  { active := activeTasks, overdue := overdueTasks, completed := completedTasks,
    total := allTasks.length }

end Tasks

/-! ### `services/taskService.js` and `hooks/useTasks.js` -/

/-- What an awaited call can throw: an HTTP-client error, of which the hook reads
`error.response?.data?.message`, or a plain `Error(message)` without a response. -/
inductive Thrown where
  | http (responseMessage : Option String)
  | plain (message : String)
deriving DecidableEq, Repr

/-- `error.response?.data?.message`. -/
def Thrown.responseMessage : Thrown → Option String
  | Thrown.http m => m
  | Thrown.plain _ => none

/-- `m || dflt` for an optional string: the empty string is falsy too. -/
def orDefault (m : Option String) (dflt : String) : String :=
  match m with
  | some s => if s != "" then s else dflt
  | none => dflt

/-- The body `response.data` of an API reply. -/
structure ApiReply (α : Type) where
  success : Bool
  message : Option String
  data : α
deriving DecidableEq, Repr

namespace taskService

/-- `taskService.createTask`: `reply` is the outcome of `api.post('/tasks', taskData)`. -/
def createTask (reply : Except Thrown (ApiReply Task)) : Except Thrown Task :=
  match reply with
  | Except.error e => Except.error e
  | Except.ok r =>
    if r.success then Except.ok r.data
    else Except.error (Thrown.plain (orDefault r.message "Failed to create task"))

/-- `taskService.updateTask`: `reply` is the outcome of `api.put`. -/
def updateTask (reply : Except Thrown (ApiReply Task)) : Except Thrown Task :=
  match reply with
  | Except.error e => Except.error e
  | Except.ok r =>
    if r.success then Except.ok r.data
    else Except.error (Thrown.plain (orDefault r.message "Failed to update task"))

/-- `taskService.deleteTask`: `reply` is the outcome of `api.delete`; the
resolved value is `response.data`. -/
def deleteTask (reply : Except Thrown (ApiReply Unit)) : Except Thrown (ApiReply Unit) :=
  match reply with
  | Except.error e => Except.error e
  | Except.ok r =>
    if r.success then Except.ok r
    else Except.error (Thrown.plain (orDefault r.message "Failed to delete task"))

end taskService

namespace useTasks

/-- The three state cells of the hook. -/
structure State where
  tasks : List Task
  loading : Bool
  error : Option String
deriving DecidableEq, Repr

/-- The object an operation resolves to. -/
structure Result where
  success : Bool
  message : String
deriving DecidableEq, Repr

/-- `setLoading(true); setError(null)`: the state while the request is pending. -/
def begin (s : State) : State := { s with loading := true, error := none }

/-- `addTask`.  `api` tells whether the API client exists; `reply` is the
outcome of the POST request. -/
def addTask (api : Bool) (reply : Except Thrown (ApiReply Task)) (s : State) :
    State × Except Thrown Result :=
  if !api then (s, Except.error (Thrown.plain "Not authenticated"))
  else
    let s1 := begin s
    match taskService.createTask reply with
    | Except.ok newTask =>
      let s2 := { s1 with tasks := newTask :: s1.tasks }
      ({ s2 with loading := false },
        Except.ok { success := true, message := "Task added successfully!" })
    | Except.error e =>
      let s2 := { s1 with error := some (orDefault e.responseMessage "Error adding task") }
      ({ s2 with loading := false }, Except.error e)

/-- `updateTask`. -/
def updateTask (api : Bool) (taskId : String) (reply : Except Thrown (ApiReply Task))
    (s : State) : State × Except Thrown Result :=
  if !api then (s, Except.error (Thrown.plain "Not authenticated"))
  else
    let s1 := begin s
    match taskService.updateTask reply with
    | Except.ok updatedTask =>
      let s2 :=
        { s1 with tasks := s1.tasks.map (fun (task : Task) => if task._id = taskId then updatedTask else task) }
      ({ s2 with loading := false },
        Except.ok { success := true, message := "Task updated successfully!" })
    | Except.error e =>
      let s2 := { s1 with error := some (orDefault e.responseMessage "Error updating task") }
      ({ s2 with loading := false }, Except.error e)

/-- `deleteTask`.  `confirmed` is the answer of `window.confirm`. -/
def deleteTask (confirmed api : Bool) (taskId : String)
    (reply : Except Thrown (ApiReply Unit)) (s : State) : State × Except Thrown Result :=
  if !confirmed then (s, Except.ok { success := false, message := "Deletion cancelled" })
  else if !api then (s, Except.error (Thrown.plain "Not authenticated"))
  else
    let s1 := begin s
    match taskService.deleteTask reply with
    | Except.ok _ =>
      let s2 := { s1 with tasks := s1.tasks.filter (fun (task : Task) => task._id != taskId) }
      ({ s2 with loading := false },
        Except.ok { success := true, message := "Task deleted successfully!" })
    | Except.error e =>
      let s2 := { s1 with error := some (orDefault e.responseMessage "Error deleting task") }
      ({ s2 with loading := false }, Except.error e)

end useTasks

end Frontend

/-! ## JavaScript strings and the engine -/

/-- Number of UTF-16 code units of a list of characters (`s.length`). -/
def utf16Len (cs : List Char) : Nat :=
  (cs.map (fun c => if c.toNat ≥ 65536 then 2 else 1)).sum

/-- `s.length` of a string. -/
def utf16Length (s : String) : Nat := utf16Len s.data

/-- White space and line terminators, the characters `String.prototype.trim` removes. -/
def isJsWhitespace (c : Char) : Bool :=
  let n := c.toNat
  n == 9 || n == 10 || n == 11 || n == 12 || n == 13 || n == 32 || n == 160 || n == 5760 ||
    (8192 ≤ n && n ≤ 8202) || n == 8232 || n == 8233 || n == 8239 || n == 8287 ||
    n == 12288 || n == 65279

/-- `s.trim()`, as the characters of the result. -/
def jsTrim (s : String) : List Char :=
  ((s.data.dropWhile isJsWhitespace).reverse.dropWhile isJsWhitespace).reverse

/-- `/[A-Z]/.test(s)`. -/
def hasUpperCase (s : String) : Bool := s.data.any (fun c => 65 ≤ c.toNat && c.toNat ≤ 90)

/-- `/[a-z]/.test(s)`. -/
def hasLowerCase (s : String) : Bool := s.data.any (fun c => 97 ≤ c.toNat && c.toNat ≤ 122)

/-- `/\d/.test(s)`. -/
def hasNumbers (s : String) : Bool := s.data.any (fun c => 48 ≤ c.toNat && c.toNat ≤ 57)

/-- The test of `/[!@#$%^&*(),.?":{}|<>]/` on a string. -/
def hasSpecialChar (s : String) : Bool :=
  s.data.any (fun c => "!@#$%^&*(),.?\":\x7b\x7d|<>".data.contains c)

/-- What the validation and query code asks of the JavaScript engine beyond the
values modelled here: date parsing, the e-mail pattern, and the `length` and
string conversion of an array or object kept opaque in `JsVal.object`. -/
structure Engine where
  /-- The test `!isNaN(new Date(v).getTime())`. -/
  validDate : JsVal → Bool
  /-- The test `emailRegex.test(v)`. -/
  emailMatches : JsVal → Bool
  /-- The number `o.length` compares as, `none` when it compares as NaN. -/
  objectLength : String → Option Int
  /-- The string `String(o)`. -/
  objectText : String → String

/-- `v.length` as a number in a comparison; `none` is NaN or `undefined`. -/
def JsVal.lengthNum (e : Engine) : JsVal → Option Int
  | JsVal.str s => some (utf16Length s)
  | JsVal.object tag => e.objectLength tag
  | _ => none

/-- `String(v)`, the text a regular expression is tested against (integers in
decimal notation). -/
def JsVal.text (e : Engine) : JsVal → String
  | JsVal.undefined => "undefined"
  | JsVal.null => "null"
  | JsVal.bool b => if b then "true" else "false"
  | JsVal.num n => toString n
  | JsVal.str s => s
  | JsVal.object tag => e.objectText tag

/-- `x < n` for a number `x` that may be NaN. -/
def numLt (x : Option Int) (n : Int) : Bool :=
  match x with
  | some v => decide (v < n)
  | none => false

/-- `x > n` for a number `x` that may be NaN. -/
def numGt (x : Option Int) (n : Int) : Bool :=
  match x with
  | some v => decide (v > n)
  | none => false

/-- `v.trim().length`: only a string has a `trim` method, on any other value
the call raises a TypeError. -/
def JsVal.trimLength (what : String) : JsVal → Except String Nat
  | JsVal.str s => Except.ok (utf16Len (jsTrim s))
  | _ => Except.error (what ++ ".trim is not a function")

/-! ## Backend: `middleware/validation.js` -/

namespace Validation

/-- The response a validator sends:
`res.status(status).json({ success, message, errors })`. -/
structure Failure where
  status : Nat
  success : Bool
  message : String
  errors : List String
deriving DecidableEq, Repr

/-- How a validation middleware ends: it calls `next()`, it responds, or an
exception escapes from it (the framework then runs the error handler). -/
inductive Outcome where
  | next
  | responded (r : Failure)
  | threw (error : String)
deriving DecidableEq, Repr

/-- The tail of every validator: respond 400 when `errors` is non-empty, call
`next()` otherwise. -/
def finish (errors : List String) : Outcome :=
  if errors.length > 0 then
    Outcome.responded
      { status := 400, success := false, message := "Validation failed", errors := errors }
  else Outcome.next

/-- The name checks of `validateRegistration` (lines 6-12): the messages they
push, or the TypeError of `name.trim()`. -/
def nameErrors (e : Engine) (name : JsVal) : Except String (List String) :=
  let second : List String :=
    if name.truthy && numGt (name.lengthNum e) 50 then ["Name cannot exceed 50 characters"]
    else []
  if !name.truthy then Except.ok (["Name must be at least 2 characters long"] ++ second)
  else
    match name.trimLength "name" with
    | Except.error err => Except.error err
    | Except.ok n =>
      Except.ok ((if n < 2 then ["Name must be at least 2 characters long"] else []) ++ second)

/-- The e-mail checks of `validateRegistration` (lines 14-20). -/
def emailErrors (e : Engine) (email : JsVal) : List String :=
  if !email.truthy then ["Email is required"]
  else if !e.emailMatches email then ["Please enter a valid email address"]
  else []

/-- The password checks of `validateRegistration` (lines 22-41). -/
def passwordErrors (e : Engine) (password : JsVal) : List String :=
  let first : List String :=
    if !password.truthy then ["Password is required"]
    else if numLt (password.lengthNum e) 6 then ["Password must be at least 6 characters long"]
    else if numGt (password.lengthNum e) 128 then ["Password cannot exceed 128 characters"]
    else []
  let second : List String :=
    if password.truthy then
      let hasUpper := hasUpperCase (password.text e)
      let hasLower := hasLowerCase (password.text e)
      let hasNums := hasNumbers (password.text e)
      let _hasSpecial := hasSpecialChar (password.text e)
      if !hasUpper || !hasLower || !hasNums then
        ["Password must contain at least one uppercase letter, one lowercase letter, and one number"]
      else []
    else []
  first ++ second

/-- `validateRegistration`. -/
def validateRegistration (e : Engine) (body : JsObject) : Outcome :=
  let name := body.get "name"
  let email := body.get "email"
  let password := body.get "password"
  match nameErrors e name with
  | Except.error err => Outcome.threw err
  | Except.ok errors => finish (errors ++ emailErrors e email ++ passwordErrors e password)

/-- The title checks of `validateTaskInput` (lines 81-86): the messages they
push, or the TypeError of `title.trim()`. -/
def titleErrors (e : Engine) (title : JsVal) : Except String (List String) :=
  if !title.truthy then Except.ok ["Task title is required"]
  else
    match title.trimLength "title" with
    | Except.error err => Except.error err
    | Except.ok n =>
      if n = 0 then Except.ok ["Task title is required"]
      else if numGt (title.lengthNum e) 200 then
        Except.ok ["Task title cannot exceed 200 characters"]
      else Except.ok []

/-- The description check of `validateTaskInput` (lines 88-91). -/
def descriptionErrors (e : Engine) (description : JsVal) : List String :=
  if description.truthy && numGt (description.lengthNum e) 1000 then
    ["Task description cannot exceed 1000 characters"]
  else []

/-- The due-date checks of `validateTaskInput` (lines 93-101). -/
def dueDateErrors (e : Engine) (dueDate : JsVal) : List String :=
  if !dueDate.truthy then ["Due date is required"]
  else if !e.validDate dueDate then ["Invalid due date format"]
  else []

/-- The priority checks of `validateTaskInput` (lines 103-109). -/
def priorityErrors (priority : JsVal) : List String :=
  let validPriorities := [JsVal.str "Low", JsVal.str "Medium", JsVal.str "High"]
  if !priority.truthy then ["Priority is required"]
  else if !validPriorities.contains priority then ["Priority must be one of: Low, Medium, High"]
  else []

/-- `validateTaskInput`. -/
def validateTaskInput (e : Engine) (body : JsObject) : Outcome :=
  let title := body.get "title"
  let description := body.get "description"
  let dueDate := body.get "dueDate"
  let priority := body.get "priority"
  match titleErrors e title with
  | Except.error err => Outcome.threw err
  | Except.ok errors =>
    finish (errors ++ descriptionErrors e description ++ dueDateErrors e dueDate ++
      priorityErrors priority)

end Validation

/-! ### An engine for the examples -/

/-- The class `\w`. -/
def isWordChar (c : Char) : Bool :=
  (48 ≤ c.toNat && c.toNat ≤ 57) || (65 ≤ c.toNat && c.toNat ≤ 90) ||
    (97 ≤ c.toNat && c.toNat ≤ 122) || c == '_'

/-- Whether the rest of the input continues a match of `\w+([.-]?\w+)*` to the
end; `afterWord` tells whether the character before was a word character. -/
def dottedWordsFrom (afterWord : Bool) : List Char → Bool
  | [] => afterWord
  | c :: cs =>
    if isWordChar c then dottedWordsFrom true cs
    else if (c == '.' || c == '-') && afterWord then dottedWordsFrom false cs
    else false

/-- The pattern `^\w+([.-]?\w+)*@\w+([.-]?\w+)*(\.\w{2,3})+$` of
`validation.js`, decided on a string: a dotted word, `@`, and a dotted word
followed by a dot and a last run of two or three word characters. -/
def emailRegexTest (s : String) : Bool :=
  let beforeAt := s.data.takeWhile (fun c => c != '@')
  let domain := (s.data.dropWhile (fun c => c != '@')).drop 1
  let lastRun := (domain.reverse.takeWhile isWordChar).length
  let rest := domain.reverse.dropWhile isWordChar
  s.data.contains '@' && dottedWordsFrom false beforeAt &&
    (lastRun == 2 || lastRun == 3) && rest.head? == some '.' &&
    dottedWordsFrom false (rest.drop 1).reverse

/-- Whether a string is a calendar date written `YYYY-MM-DD` with month 01-12
and day 01-28, a form every engine parses to a valid date. -/
def isIsoDay (s : String) : Bool :=
  match s.data with
  | [y1, y2, y3, y4, d1, m1, m2, d2, a1, a2] =>
    y1.isDigit && y2.isDigit && y3.isDigit && y4.isDigit && d1 == '-' && d2 == '-' &&
      m1.isDigit && m2.isDigit && a1.isDigit && a2.isDigit &&
      1 ≤ (m1.toNat - 48) * 10 + (m2.toNat - 48) && (m1.toNat - 48) * 10 + (m2.toNat - 48) ≤ 12 &&
      1 ≤ (a1.toNat - 48) * 10 + (a2.toNat - 48) && (a1.toNat - 48) * 10 + (a2.toNat - 48) ≤ 28
  | _ => false

/-- An engine used to run the definitions on examples: it takes as valid dates
the strings accepted by `isIsoDay` and integer time values, decides the e-mail
pattern on strings, and sees every opaque value as a plain object. -/
def exampleEngine : Engine where
  validDate := fun v =>
    match v with
    | JsVal.str s => isIsoDay s
    | JsVal.num _ => true
    | _ => false
  emailMatches := fun v =>
    match v with
    | JsVal.str s => emailRegexTest s
    | _ => false
  objectLength := fun _ => none
  objectText := fun _ => "[object Object]"

/-! ## Backend: the routes with their middleware, and `GET /api/tasks` -/

namespace TaskRoutes

/-- How a route with a validation middleware ends: the validator responds, the
handler responds, or an exception escapes to the error handler. -/
inductive RouteResult where
  | invalid (r : Validation.Failure)
  | handled (r : Response)
  | threw (error : String)
deriving DecidableEq, Repr

/-- The route `router.post('/', validateTaskInput, handler)` for an authenticated caller. -/
def postRoute (e : Engine) (schemaError : Task → Option String) (freshId : String) (now : Int)
    (db : Db) (caller : String) (body : JsObject) : RouteResult × Db :=
  match Validation.validateTaskInput e body with
  | Validation.Outcome.next =>
    (RouteResult.handled (postHandler schemaError freshId now db caller body).1,
      (postHandler schemaError freshId now db caller body).2)
  | Validation.Outcome.responded r => (RouteResult.invalid r, db)
  | Validation.Outcome.threw err => (RouteResult.threw err, db)

/-- The route `router.put('/:id', validateTaskInput, handler)` for an authenticated caller. -/
def putRoute (e : Engine) (errors : DbErrors) (schemaError : Task → Option String) (db : Db)
    (caller id : String) (body : JsObject) : RouteResult × Db :=
  match Validation.validateTaskInput e body with
  | Validation.Outcome.next =>
    (RouteResult.handled (putHandler errors schemaError db caller id body).1,
      (putHandler errors schemaError db caller id body).2)
  | Validation.Outcome.responded r => (RouteResult.invalid r, db)
  | Validation.Outcome.threw err => (RouteResult.threw err, db)

/-- Lines 13 and 27-29 of the GET handler: the sort object, as the list of its
own (key, direction) pairs.  `sortBy` and `sortOrder` default to `'createdAt'`
and `'desc'` when they are `undefined`.  `sortObj[sortBy] = ...` uses the string
form of `sortBy` as property name; for the name `__proto__` the assignment goes
to the prototype setter, which ignores a number, and the object keeps no own
key. -/
def getSort (e : Engine) (query : JsObject) : List (String × Int) :=
  let sortBy :=
    if query.get "sortBy" = JsVal.undefined then JsVal.str "createdAt" else query.get "sortBy"
  let sortOrder :=
    if query.get "sortOrder" = JsVal.undefined then JsVal.str "desc" else query.get "sortOrder"
  if sortBy.text e = "__proto__" then []
  else [(sortBy.text e, if sortOrder = JsVal.str "asc" then 1 else -1)]

/-- Whether document `a` may stand in front of `b` under one (key, direction)
pair: not greater for direction 1, not less for -1.  Creation times are compared
as numbers; `fieldOrder` is the database's order of two documents by any other
key. -/
def inOrder (fieldOrder : String → Task → Task → Ordering) (spec : String × Int) (a b : Task) :
    Bool :=
  let c :=
    if spec.1 = "createdAt" then compare a.createdAt b.createdAt
    else fieldOrder spec.1 a b
  if spec.2 = 1 then c != Ordering.gt else c != Ordering.lt

/-- Put a document into a sorted list, in front of the first one it may stand
in front of. -/
def insertDoc (le : Task → Task → Bool) (a : Task) : List Task → List Task
  | [] => [a]
  | b :: bs => if le a b then a :: b :: bs else b :: insertDoc le a bs

/-- `.sort(sortObj)` on the documents a query found (ties keep the order of
the collection; an empty sort object leaves that order). -/
def sortDocs (fieldOrder : String → Task → Task → Ordering) (sortObj : List (String × Int))
    (docs : List Task) : List Task :=
  match sortObj with
  | [] => docs
  | spec :: _ => docs.foldr (insertDoc (inOrder fieldOrder spec)) []

/-- The handler of `router.get('/', async (req, res) => ...)`.  `filterError`
is the error the database raises for a filter it cannot run (an invalid
regular expression), `none` when the query runs. -/
def getHandler (e : Engine) (ops : QueryOps) (filterError : Filter → Option String)
    (fieldOrder : String → Task → Task → Ordering) (db : Db) (caller : String)
    (query : JsObject) : Response :=
  let filter := getFilter caller query
  let sortObj := getSort e query
  match filterError filter with
  | some msg =>
    { status := 500, success := false, message := some "Error fetching tasks",
      data := Payload.absent, error := some msg }
  | none =>
    let tasks := (sortDocs fieldOrder sortObj (find ops db filter)).map (populate db)
    { status := 200, success := true, message := none, data := Payload.tasks tasks,
      error := none }

/-! ### Regular expressions on a fragment, for the examples -/

/-- The characters with a special meaning in a regular expression. -/
def isRegexMeta (c : Char) : Bool := "\\^$.|?*+()[]\x7b\x7d".data.contains c

/-- Whether a pattern character matches a text character under option `i`:
`.` matches every character but a line feed, any other character matches itself
in either case. -/
def patternCharMatches (p c : Char) : Bool :=
  if p == '.' then c != '\n' else p.toLower == c.toLower

/-- Whether the pattern matches at the start of the text. -/
def matchesAt : List Char → List Char → Bool
  | [], _ => true
  | _ :: _, [] => false
  | p :: ps, c :: cs => patternCharMatches p c && matchesAt ps cs

/-- Whether the pattern matches somewhere in the text. -/
def matchesSomewhere : List Char → List Char → Bool
  | pat, [] => pat.isEmpty
  | pat, c :: cs => matchesAt pat (c :: cs) || matchesSomewhere pat cs

/-- `{ $regex: pattern, $options: 'i' }` on a string, for a pattern made of
ordinary characters and `.` only; `none` for a pattern with another operator. -/
def regexFragmentTest (pattern text : String) : Option Bool :=
  if pattern.data.all (fun c => c == '.' || !isRegexMeta c) then
    some (matchesSomewhere pattern.data text.data)
  else none

/-- Matching primitives used to run queries on examples: equality of values,
and regular expressions of the fragment above on strings. -/
def exampleOps : QueryOps where
  valueMatches := fun q d => q == d
  regexMatches := fun pattern _ d =>
    match pattern, d with
    | JsVal.str p, JsVal.str t => (regexFragmentTest p t).getD false
    | _, _ => false

end TaskRoutes

/-! ## Frontend: deletion, seen from the caller -/

namespace Frontend

/-- Whether `useTasks.deleteTask` reaches `taskService.deleteTask(api, taskId)`,
that is, issues the DELETE request: it returns before when the confirmation is
declined and throws before when there is no API client. -/
def useTasks.issuesDeleteRequest (confirmed api : Bool) : Bool :=
  if !confirmed then false else if !api then false else true

namespace App_backup

/-- `handleDeleteTask` of `App_backup.jsx`: the notification it shows
(message and severity), if any, given how `deleteTask(taskId)` ended; an
exception of `deleteTask` propagates. -/
def handleDeleteTask (outcome : Except Thrown useTasks.Result) :
    Except Thrown (Option (String × String)) :=
  match outcome with
  | Except.error err => Except.error err
  | Except.ok result =>
    if result.success then Except.ok (some (result.message, "success"))
    else if result.message != "Deletion cancelled" then
      Except.ok (some (result.message, "error"))
    else Except.ok none

end App_backup

end Frontend

/-! ## The validation rules in the words of the specification -/

namespace Validation

/-- A field that is absent or holds a string. -/
def isTextOrAbsent (v : JsVal) : Bool :=
  match v with
  | JsVal.undefined => true
  | JsVal.str _ => true
  | _ => false

/-- Specification of the title rule: present, non-empty after trimming, at most
200 characters. -/
def specTitleOk (v : JsVal) : Bool :=
  match v with
  | JsVal.str s => utf16Len (jsTrim s) != 0 && decide (utf16Length s ≤ 200)
  | _ => false

/-- Specification of the description rule: absent, or at most 1000 characters. -/
def specDescriptionOk (v : JsVal) : Bool :=
  match v with
  | JsVal.undefined => true
  | JsVal.str s => decide (utf16Length s ≤ 1000)
  | _ => false

/-- Specification of the due-date rule: present and parsing to a valid date. -/
def specDueDateOk (e : Engine) (v : JsVal) : Bool :=
  match v with
  | JsVal.str s => e.validDate (JsVal.str s)
  | _ => false

/-- Specification of the priority rule: one of 'Low', 'Medium', 'High'. -/
def specPriorityOk (v : JsVal) : Bool :=
  v == JsVal.str "Low" || v == JsVal.str "Medium" || v == JsVal.str "High"

/-- Specification of an acceptable task input: all four rules hold. -/
def specTaskInputOk (e : Engine) (body : JsObject) : Bool :=
  specTitleOk (body.get "title") && specDescriptionOk (body.get "description") &&
    specDueDateOk e (body.get "dueDate") && specPriorityOk (body.get "priority")

/-- The body `{ name, email, password }` that `register(name, email, password)`
of `AuthContext.jsx` posts to `/auth/register`. -/
def registerBody (name email password : String) : JsObject :=
  [("name", JsVal.str name), ("email", JsVal.str email), ("password", JsVal.str password)]

end Validation

/-- A task document of owner `alice` with the given id and title, for the examples. -/
def TaskRoutes.exampleTask (id title : String) : TaskRoutes.Task :=
  { _id := id, title := JsVal.str title, description := JsVal.str "",
    dueDate := JsVal.str "2024-01-15", priority := JsVal.str "Low",
    status := JsVal.str "Pending", user := "alice", createdAt := 0 }

/-! ## Backend: `validateProfileUpdate` -/

namespace Validation

/-- The name checks of `validateProfileUpdate` (lines 126-134): they run for
every name that is not `undefined`, so `null` and every other value without a
`trim` method raise a TypeError. -/
def profileNameErrors (e : Engine) (name : JsVal) : Except String (List String) :=
  if name = JsVal.undefined then Except.ok []
  else if name = JsVal.null then
    Except.error "Cannot read properties of null (reading 'trim')"
  else
    match name.trimLength "name" with
    | Except.error err => Except.error err
    | Except.ok n =>
      Except.ok ((if n < 2 then ["Name must be at least 2 characters long"] else []) ++
        (if numGt (name.lengthNum e) 50 then ["Name cannot exceed 50 characters"] else []))

/-- The e-mail check of `validateProfileUpdate` (lines 136-142). -/
def profileEmailErrors (e : Engine) (email : JsVal) : List String :=
  if email = JsVal.undefined then []
  else if !e.emailMatches email then ["Please enter a valid email address"]
  else []

/-- `validateProfileUpdate`. -/
def validateProfileUpdate (e : Engine) (body : JsObject) : Outcome :=
  let name := body.get "name"
  let email := body.get "email"
  match profileNameErrors e name with
  | Except.error err => Outcome.threw err
  | Except.ok errors => finish (errors ++ profileEmailErrors e email)

end Validation

/-! ## Frontend: `components/Dashboard.jsx`, the displayed list -/

namespace Frontend

namespace Dashboard

/-- The comparator `(a, b) => new Date(a.dueDate) - new Date(b.dueDate)`. -/
def byDueDate (a b : Task) : Option Int := numSub a.dueDate b.dueDate

/-- `activeTasks`: the tasks that are neither completed nor overdue, sorted by
due date.  `filter` builds a new array and `sort` sorts that array in place, so
the array `tasks` itself is not written. -/
def activeTasks (clock : Clock) (tasks : List Task) : List Task :=
  jsSort byDueDate
    (tasks.filter (fun task => task.status != "Completed" && !isTaskOverdue clock task))

/-- The state the displayed list depends on: `tasks` of `useTasks`, the three
filter cells of `Dashboard`, and the two cells of its child `TaskFilters`
(`filterType`, `activeFilter`), which is mounted while `showFilters` holds. -/
structure State where
  tasks : List Task
  filteredActiveTasks : List Task
  showFilters : Bool
  activeFilterApplied : Bool
  filterType : String
  activeFilter : String
deriving DecidableEq, Repr

/-- The state after the first render with the given task list. -/
def State.initial (tasks : List Task) : State :=
  { tasks := tasks, filteredActiveTasks := [], showFilters := false,
    activeFilterApplied := false, filterType := "status", activeFilter := "All" }

/-- `handleFilterChange(filter, filterType)`. -/
def handleFilterChange (clock : Clock) (filter filterType : String) (s : State) : State :=
  if filter = "All" then { s with filteredActiveTasks := [], activeFilterApplied := false }
  else
    let filtered : List Task :=
      if filterType = "status" then
        (activeTasks clock s.tasks).filter (fun (task : Task) => task.status == filter)
      else if filterType = "priority" then
        (activeTasks clock s.tasks).filter (fun (task : Task) => task.priority == filter)
      else []
    let filtered := jsSort byDueDate filtered
    { s with filteredActiveTasks := filtered, activeFilterApplied := true }

/-- `displayTasks`, the list handed to `TaskList`. -/
def displayTasks (clock : Clock) (s : State) : List Task :=
  if s.activeFilterApplied && s.showFilters then s.filteredActiveTasks
  else activeTasks clock s.tasks

/-- What can happen to the dashboard: the filter panel is toggled, a filter
button or a filter-type button of `TaskFilters` is pressed, or `useTasks`
publishes a new task list (after an addition, update, deletion or refetch). -/
inductive Event where
  | toggleFilters
  | selectFilter (filter : String)
  | selectFilterType (filterType : String)
  | tasksChanged (tasks : List Task)
deriving DecidableEq, Repr

/-- One event.  The buttons of `TaskFilters` exist only while the panel is
shown; the panel starts with type 'status' and filter 'All' each time it is
mounted. -/
def step (clock : Clock) (s : State) : Event → State
  | Event.toggleFilters =>
    let newShowFilters := !s.showFilters
    let s1 : State :=
      { s with showFilters := newShowFilters, filterType := "status", activeFilter := "All" }
    if !newShowFilters then { s1 with filteredActiveTasks := [], activeFilterApplied := false }
    else s1
  | Event.selectFilter filter =>
    if s.showFilters then
      handleFilterChange clock filter s.filterType { s with activeFilter := filter }
    else s
  | Event.selectFilterType filterType =>
    if s.showFilters then
      handleFilterChange clock "All" filterType
        { s with filterType := filterType, activeFilter := "All" }
    else s
  | Event.tasksChanged tasks => { s with tasks := tasks }

/-- A sequence of events. -/
def run (clock : Clock) (s : State) (events : List Event) : State :=
  events.foldl (step clock) s

end Dashboard

/-- `error.message` of what was thrown; `httpMessage` is the message the HTTP
client gives its own errors. -/
def Thrown.message (httpMessage : String) : Thrown → String
  | Thrown.http _ => httpMessage
  | Thrown.plain m => m

/-- `onDelete` of `Dashboard.jsx`: the notification (message, severity) it shows
once `deleteTask(taskId)` has ended with `outcome`. -/
def Dashboard.onDelete (httpMessage : String) (outcome : Except Thrown useTasks.Result) :
    String × String :=
  match outcome with
  | Except.ok _ => ("Task deleted successfully!", "success")
  | Except.error err =>
    (orDefault (some (err.message httpMessage)) "Failed to delete task", "error")

/-- `onDelete` of `Tasks.jsx`. -/
def Tasks.onDelete (httpMessage : String) (outcome : Except Thrown useTasks.Result) :
    String × String :=
  match outcome with
  | Except.ok _ => ("Task deleted successfully!", "success")
  | Except.error err =>
    (orDefault (some (err.message httpMessage)) "Failed to delete task", "error")

end Frontend

/-! ## Frontend: the task forms -/

namespace Frontend

/-- The `formData` state of a task form. -/
structure FormData where
  title : String
  description : String
  dueDate : String
  priority : String
  status : String
deriving DecidableEq, Repr

/-- The form both components start with and reset to. -/
def emptyForm : FormData :=
  { title := "", description := "", dueDate := "", priority := "Medium", status := "Pending" }

/-- `title.replace(/\d/g, '').trim()`. -/
def cleanTitle (title : String) : String :=
  String.mk (jsTrim (String.mk (title.data.filter (fun c => !(48 ≤ c.toNat && c.toNat ≤ 57)))))

/-- `setFormData(prev => ({ ...prev, [name]: value }))` on the five fields of
the form (another name adds a property the form never reads). -/
def setField (name value : String) (formData : FormData) : FormData :=
  if name = "title" then { formData with title := value }
  else if name = "description" then { formData with description := value }
  else if name = "dueDate" then { formData with dueDate := value }
  else if name = "priority" then { formData with priority := value }
  else if name = "status" then { formData with status := value }
  else formData

namespace TaskFormModal

/-- The effect on `editingTask`; `dateText` is `editingTask.dueDate.split('T')[0]`. -/
def loadTask (dateText : Task → String) (editingTask : Option Task) : FormData :=
  match editingTask with
  | some task =>
    { title := cleanTitle task.title, description := task.description,
      dueDate := dateText task, priority := task.priority, status := task.status }
  | none => emptyForm

/-- `handleInputChange`. -/
def handleInputChange (name value : String) (formData : FormData) : FormData :=
  if name = "title" && hasNumbers value then formData
  else setField name value formData

/-- `handleSubmit`: the form data handed to `onSubmit`, if any. -/
def handleSubmit (formData : FormData) : Option FormData :=
  if formData.title = "" || formData.dueDate = "" then none
  else if hasNumbers formData.title then none
  else some formData

/-- The events of the form: an input changes, the task to edit changes, the
parent calls `resetForm`, the dialog is closed (`handleClose`). -/
inductive Event where
  | change (name value : String)
  | load (editingTask : Option Task)
  | reset
  | close
deriving DecidableEq, Repr

/-- One event. -/
def step (dateText : Task → String) (formData : FormData) : Event → FormData
  | Event.change name value => handleInputChange name value formData
  | Event.load editingTask => loadTask dateText editingTask
  | Event.reset => emptyForm
  | Event.close => emptyForm

/-- A sequence of events from the initial form. -/
def run (dateText : Task → String) (events : List Event) : FormData :=
  events.foldl (step dateText) emptyForm

end TaskFormModal

namespace TaskForm

/-- The effect on `editingTask`; `dateText` is `editingTask.dueDate.split('T')[0]`. -/
def loadTask (dateText : Task → String) (editingTask : Option Task) : FormData :=
  match editingTask with
  | some task =>
    { title := cleanTitle task.title, description := task.description,
      dueDate := dateText task, priority := task.priority, status := task.status }
  | none => emptyForm

/-- `handleInputChange`. -/
def handleInputChange (name value : String) (formData : FormData) : FormData :=
  if name = "title" && hasNumbers value then formData
  else setField name value formData

/-- `handleSubmit`: the form data handed to `onSubmit`, if any. -/
def handleSubmit (formData : FormData) : Option FormData :=
  if formData.title = "" || formData.dueDate = "" then none
  else if hasNumbers formData.title then none
  else some formData

/-- The events of the form: an input changes, the task to edit changes, the
parent calls `resetForm`. -/
inductive Event where
  | change (name value : String)
  | load (editingTask : Option Task)
  | reset
deriving DecidableEq, Repr

/-- One event. -/
def step (dateText : Task → String) (formData : FormData) : Event → FormData
  | Event.change name value => handleInputChange name value formData
  | Event.load editingTask => loadTask dateText editingTask
  | Event.reset => emptyForm

/-- A sequence of events from the initial form. -/
def run (dateText : Task → String) (events : List Event) : FormData :=
  events.foldl (step dateText) emptyForm

end TaskForm

/-! ## Frontend: `contexts/AuthContext.jsx`, the 401 interceptor -/

namespace AuthContext

/-- The chain of `logout()` calls, counted as (calls of `logout`, POST
/auth/logout requests).  `token` is the token the closure of `logout` holds,
`status k` the status the server answers to the `k`-th logout request, and the
first argument bounds how many calls are followed.  A call posts when it holds
a token; the response of that request passes the response interceptor, which
calls `logout()` again when the status is 401. -/
def logoutChain (token : Bool) (status : Nat → Nat) : Nat → Nat → Nat × Nat
  | 0, _ => (0, 0)
  | followed + 1, k =>
    if token then
      if status k = 401 then
        ((logoutChain token status followed (k + 1)).1 + 1,
          (logoutChain token status followed (k + 1)).2 + 1)
      else (1, 1)
    else (1, 0)

/-- The error branch of `api.interceptors.response.use` on a response with the
given status: the `logout` calls and logout requests it sets off. -/
def onResponseError (token : Bool) (status : Nat → Nat) (followed : Nat)
    (responseStatus : Nat) : Nat × Nat :=
  if responseStatus = 401 then logoutChain token status followed 0 else (0, 0)

end AuthContext

end Frontend

/-! ## Properties of the backend routes -/

namespace TaskRoutes

theorem findOne_eq_none (db : Db) (caller id : String)
    (h : ∀ t ∈ db.tasks, ¬ (t._id = id ∧ t.user = caller)) : findOne db id caller = none := by
  unfold findOne
  rw [List.find?_eq_none]
  intro t ht
  simpa using h t ht

theorem applyTo_frame (u : TaskUpdate) (t : Task) :
    (u.applyTo t)._id = t._id ∧ (u.applyTo t).user = t.user ∧
      (u.applyTo t).createdAt = t.createdAt := by
  simp [TaskUpdate.applyTo]

theorem updateFirst_frame (id : String) (u : TaskUpdate) (ts : List Task) :
    (updateFirst id u.applyTo ts).map (fun t => (t._id, t.user, t.createdAt)) =
      ts.map (fun t => (t._id, t.user, t.createdAt)) := by
  induction ts with
  | nil => rfl
  | cons t ts ih =>
    unfold updateFirst
    split
    · simp [TaskUpdate.applyTo]
    · simp [ih]

/-- C1 (counterexample): `alice` owns no task with the id `abc`, which is not
written as an object id, so the lookup rejects with a cast error: the DELETE
handler and the PUT handler answer 400, not 404. -/
theorem malformed_id_is_bad_request :
    (∀ t ∈ ({ tasks := [], users := [] } : Db).tasks, ¬ (t._id = "abc" ∧ t.user = "alice")) ∧
      deleteHandler castErrors { tasks := [], users := [] } "alice" "abc" =
        ({ status := 400, success := false, message := some "Error deleting task",
           data := Payload.absent, error := some "Cast to ObjectId failed" },
         { tasks := [], users := [] }) ∧
      putHandler castErrors (fun _ => none) { tasks := [], users := [] } "alice" "abc"
          [("title", JsVal.str "x")] =
        ({ status := 400, success := false, message := some "Error updating task",
           data := Payload.absent, error := some "Cast to ObjectId failed" },
         { tasks := [], users := [] }) := by
  decide

/-- C1 (amended): when no stored task has both the requested id and the caller
as owner, the PUT handler and the DELETE handler leave the store as it was and
answer 404 with `{success: false, message: 'Task not found or unauthorized'}`
if the lookup runs, and 400 with 'Error updating task' / 'Error deleting task'
and the error's message if the lookup rejects; either way any two stores
without such a task, whatever tasks of other owners carry that id in either of
them, get the same response. -/
theorem not_owned_is_not_found (errors : DbErrors) (schemaError : Task → Option String)
    (db db2 : Db) (caller id : String) (body : JsObject)
    (h : ∀ t ∈ db.tasks, ¬ (t._id = id ∧ t.user = caller))
    (h2 : ∀ t ∈ db2.tasks, ¬ (t._id = id ∧ t.user = caller)) :
    (errors.lookup id = none →
        putHandler errors schemaError db caller id body =
          ({ status := 404, success := false, message := some "Task not found or unauthorized",
             data := Payload.absent, error := none }, db) ∧
        deleteHandler errors db caller id =
          ({ status := 404, success := false, message := some "Task not found or unauthorized",
             data := Payload.absent, error := none }, db)) ∧
      (∀ msg, errors.lookup id = some msg →
        putHandler errors schemaError db caller id body =
          ({ status := 400, success := false, message := some "Error updating task",
             data := Payload.absent, error := some msg }, db) ∧
        deleteHandler errors db caller id =
          ({ status := 400, success := false, message := some "Error deleting task",
             data := Payload.absent, error := some msg }, db)) ∧
      (putHandler errors schemaError db2 caller id body).1 =
        (putHandler errors schemaError db caller id body).1 ∧
      (deleteHandler errors db2 caller id).1 = (deleteHandler errors db caller id).1 := by
  have e1 := findOne_eq_none db caller id h
  have e2 := findOne_eq_none db2 caller id h2
  refine ⟨?_, ?_, ?_, ?_⟩
  · intro hl
    simp [putHandler, deleteHandler, deleteLookup, hl, e1, notFound]
  · intro msg hl
    simp [putHandler, deleteHandler, deleteLookup, hl]
  · cases hl : errors.lookup id <;> simp [putHandler, hl, e1, e2]
  · cases hl : errors.lookup id <;> simp [deleteHandler, deleteLookup, hl, e1, e2]

/-- Witness of C1 (amended): caller `alice`, id `t1`, no rejection; in the first
store `t1` does not exist, in the second it exists and belongs to `bob`. -/
theorem not_owned_is_not_found_witness :
    (putHandler noDbErrors (fun _ => none) { tasks := [], users := [] } "alice" "t1"
        [("title", JsVal.str "x")]).1.status = 404 ∧
      (deleteHandler noDbErrors
        { tasks := [{ _id := "t1", title := JsVal.str "a", description := JsVal.str "",
                      dueDate := JsVal.str "2024-01-15", priority := JsVal.str "Low",
                      status := JsVal.str "Pending", user := "bob", createdAt := 0 }],
          users := [] } "alice" "t1").1 =
        (deleteHandler noDbErrors { tasks := [], users := [] } "alice" "t1").1 := by
  have h := not_owned_is_not_found noDbErrors (fun _ => none) { tasks := [], users := [] }
    { tasks := [{ _id := "t1", title := JsVal.str "a", description := JsVal.str "",
                  dueDate := JsVal.str "2024-01-15", priority := JsVal.str "Low",
                  status := JsVal.str "Pending", user := "bob", createdAt := 0 }],
      users := [] } "alice" "t1" [("title", JsVal.str "x")] (by simp) (by simp)
  exact ⟨by rw [(h.1 rfl).1], h.2.2.2⟩

/-- C2: the filter built by GET /tasks binds `user` to the caller's id, binds
`status`, `priority` and `$or` (the search) exactly when the corresponding
query parameter is truthy, to that parameter, has no other key, and a task
matches it exactly when it is the caller's and satisfies every constraint that
is present. -/
theorem getFilter_spec (caller : String) (query : JsObject) :
    (getFilter caller query).lookup "user" = some (Constraint.owner caller) ∧
      (getFilter caller query).lookup "status" =
        (if (query.get "status").truthy then some (Constraint.equals (query.get "status"))
         else none) ∧
      (getFilter caller query).lookup "priority" =
        (if (query.get "priority").truthy then some (Constraint.equals (query.get "priority"))
         else none) ∧
      (getFilter caller query).lookup "$or" =
        (if (query.get "search").truthy then
          some (Constraint.anyOf
            [{ field := "title", regex := query.get "search", options := "i" },
             { field := "description", regex := query.get "search", options := "i" }])
         else none) ∧
      (∀ k ∈ (getFilter caller query).map Prod.fst, k ∈ ["user", "status", "priority", "$or"]) ∧
      ∀ (ops : QueryOps) (t : Task),
        Filter.matches ops (getFilter caller query) t =
          (t.user == caller &&
            (!(query.get "status").truthy || ops.valueMatches (query.get "status") t.status) &&
            (!(query.get "priority").truthy ||
              ops.valueMatches (query.get "priority") t.priority) &&
            (!(query.get "search").truthy ||
              (ops.regexMatches (query.get "search") "i" t.title ||
                ops.regexMatches (query.get "search") "i" t.description))) := by
  cases hs : (query.get "status").truthy <;> cases hp : (query.get "priority").truthy <;>
    cases hq : (query.get "search").truthy <;>
    simp [getFilter, hs, hp, hq, List.lookup, Filter.matches, Constraint.holds, Task.field,
      Bool.and_assoc]

/-- C3: whatever the request body carries, the PUT handler leaves the user
collection alone and either leaves the task collection as it was or writes the
update document `{title, description || '', dueDate, priority, status}` built
from the body into the first task with the requested id; writing an update
document keeps `_id`, `user` and `createdAt`, so every stored task has the same
id, owner and creation time after the request as before. -/
theorem put_changes_only_editable_fields (errors : DbErrors)
    (schemaError : Task → Option String) (db : Db) (caller id : String) (body : JsObject) :
    (putHandler errors schemaError db caller id body).2.users = db.users ∧
      ((putHandler errors schemaError db caller id body).2.tasks = db.tasks ∨
        (putHandler errors schemaError db caller id body).2.tasks =
          updateFirst id
            (TaskUpdate.applyTo
              { title := body.get "title",
                description := (body.get "description").or (JsVal.str ""),
                dueDate := body.get "dueDate", priority := body.get "priority",
                status := body.get "status" }) db.tasks) ∧
      (∀ (u : TaskUpdate) (t : Task),
        (u.applyTo t)._id = t._id ∧ (u.applyTo t).user = t.user ∧
          (u.applyTo t).createdAt = t.createdAt) ∧
      (putHandler errors schemaError db caller id body).2.tasks.map
          (fun t => (t._id, t.user, t.createdAt)) =
        db.tasks.map (fun t => (t._id, t.user, t.createdAt)) := by
  refine ⟨?_, ?_, applyTo_frame, ?_⟩
  · unfold putHandler
    cases errors.lookup id <;> simp only
    cases findOne db id caller <;> simp only
    cases findById db id <;> simp only
    split <;> rfl
  · unfold putHandler
    cases errors.lookup id <;> simp only
    · cases findOne db id caller <;> simp only
      · exact Or.inl trivial
      cases findById db id <;> simp only
      · exact Or.inl trivial
      split
      · exact Or.inl rfl
      · exact Or.inr rfl
    · exact Or.inl trivial
  · unfold putHandler
    cases errors.lookup id <;> simp only
    cases findOne db id caller <;> simp only
    cases findById db id <;> simp only
    split
    · rfl
    · exact updateFirst_frame id _ db.tasks

/-- C4: whatever the request body carries, the POST handler either rejects the
document (status 400, store unchanged) or answers 201 and appends exactly one
task, whose owner is the caller and whose other fields are read from the
body's `title`, `description`, `dueDate`, `priority` and `status`. -/
theorem post_owner_is_caller (schemaError : Task → Option String) (freshId : String)
    (now : Int) (db : Db) (caller : String) (body : JsObject) :
    ((postHandler schemaError freshId now db caller body).1.status = 400 ∧
        (postHandler schemaError freshId now db caller body).2 = db) ∨
      ((postHandler schemaError freshId now db caller body).1.status = 201 ∧
        (postHandler schemaError freshId now db caller body).2.users = db.users ∧
        ∃ t : Task, t.user = caller ∧
          (postHandler schemaError freshId now db caller body).2.tasks = db.tasks ++ [t] ∧
          t = { _id := freshId, title := body.get "title",
                description := (body.get "description").or (JsVal.str ""),
                dueDate := body.get "dueDate", priority := body.get "priority",
                status := (body.get "status").or (JsVal.str "Pending"),
                user := caller, createdAt := now } ∧
          schemaError t = none) := by
  unfold postHandler
  simp only
  split
  · exact Or.inl ⟨rfl, rfl⟩
  · next hnone => exact Or.inr ⟨rfl, rfl, _, rfl, rfl, rfl, hnone⟩

end TaskRoutes

/-! ## Properties of the validation middleware -/

namespace Validation

theorem truthy_str (s : String) : (JsVal.str s).truthy = true ↔ s ≠ "" := by
  simp [JsVal.truthy]

theorem finish_eq_next (errors : List String) : finish errors = Outcome.next ↔ errors = [] := by
  cases errors <;> simp [finish]

theorem finish_of_ne_nil (errors : List String) (h : errors ≠ []) :
    finish errors =
      Outcome.responded
        { status := 400, success := false, message := "Validation failed", errors := errors } := by
  cases errors with
  | nil => exact absurd rfl h
  | cons a as => simp [finish]

/-- The title checks on an absent or string title: no exception, at most one
message, and none exactly when the title rule holds. -/
theorem titleErrors_text (e : Engine) (v : JsVal) (h : isTextOrAbsent v = true) :
    ∃ errs, titleErrors e v = Except.ok errs ∧ errs.length ≤ 1 ∧
      (errs = [] ↔ specTitleOk v = true) := by
  cases v with
  | undefined => exact ⟨_, rfl, by simp, by simp [specTitleOk]⟩
  | str s =>
    by_cases hs : s = ""
    · subst hs
      exact ⟨_, rfl, by simp, by simp [specTitleOk, jsTrim, utf16Len]⟩
    · have ht : (JsVal.str s).truthy = true := (truthy_str s).mpr hs
      by_cases hn : utf16Len (jsTrim s) = 0
      · refine ⟨["Task title is required"], ?_, by simp, by simp [specTitleOk, hn]⟩
        simp [titleErrors, ht, JsVal.trimLength, hn]
      · by_cases hl : utf16Length s ≤ 200
        · refine ⟨[], ?_, by simp, by simp [specTitleOk, hn, hl]⟩
          simp [titleErrors, ht, JsVal.trimLength, hn, JsVal.lengthNum, numGt]
          omega
        · refine ⟨["Task title cannot exceed 200 characters"], ?_, by simp,
            by simp [specTitleOk, hn, hl]⟩
          simp [titleErrors, ht, JsVal.trimLength, hn, JsVal.lengthNum, numGt]
          omega
  | null => simp [isTextOrAbsent] at h
  | bool b => simp [isTextOrAbsent] at h
  | num n => simp [isTextOrAbsent] at h
  | object t => simp [isTextOrAbsent] at h

/-- The description check on an absent or string description. -/
theorem descriptionErrors_text (e : Engine) (v : JsVal) (h : isTextOrAbsent v = true) :
    (descriptionErrors e v).length ≤ 1 ∧
      (descriptionErrors e v = [] ↔ specDescriptionOk v = true) := by
  cases v with
  | undefined => simp [descriptionErrors, specDescriptionOk, JsVal.truthy]
  | str s =>
    by_cases hs : s = ""
    · subst hs
      simp [descriptionErrors, specDescriptionOk, JsVal.truthy, utf16Length, utf16Len]
    · have ht : (JsVal.str s).truthy = true := (truthy_str s).mpr hs
      by_cases hl : utf16Length s ≤ 1000
      · have : ¬ ((utf16Length s : Int) > 1000) := by omega
        simp [descriptionErrors, specDescriptionOk, ht, JsVal.lengthNum, numGt, hl, this]
      · have : ((utf16Length s : Int) > 1000) := by omega
        simp [descriptionErrors, specDescriptionOk, ht, JsVal.lengthNum, numGt, hl, this]
  | null => simp [isTextOrAbsent] at h
  | bool b => simp [isTextOrAbsent] at h
  | num n => simp [isTextOrAbsent] at h
  | object t => simp [isTextOrAbsent] at h

/-- The due-date checks on an absent or string due date, for an engine in which
the empty string is not a valid date. -/
theorem dueDateErrors_text (e : Engine) (v : JsVal) (hempty : e.validDate (JsVal.str "") = false)
    (h : isTextOrAbsent v = true) :
    (dueDateErrors e v).length ≤ 1 ∧ (dueDateErrors e v = [] ↔ specDueDateOk e v = true) := by
  cases v with
  | undefined => simp [dueDateErrors, specDueDateOk, JsVal.truthy]
  | str s =>
    by_cases hs : s = ""
    · subst hs
      simp [dueDateErrors, specDueDateOk, JsVal.truthy, hempty]
    · have ht : (JsVal.str s).truthy = true := (truthy_str s).mpr hs
      cases hv : e.validDate (JsVal.str s) <;> simp [dueDateErrors, specDueDateOk, ht, hv]
  | null => simp [isTextOrAbsent] at h
  | bool b => simp [isTextOrAbsent] at h
  | num n => simp [isTextOrAbsent] at h
  | object t => simp [isTextOrAbsent] at h

/-- The priority checks, on every value. -/
theorem priorityErrors_spec (v : JsVal) :
    (priorityErrors v).length ≤ 1 ∧ (priorityErrors v = [] ↔ specPriorityOk v = true) := by
  by_cases h1 : v = JsVal.str "Low"
  · subst h1; decide
  by_cases h2 : v = JsVal.str "Medium"
  · subst h2; decide
  by_cases h3 : v = JsVal.str "High"
  · subst h3; decide
  have hspec : specPriorityOk v = false := by simp [specPriorityOk, h1, h2, h3]
  cases ht : v.truthy <;> simp [priorityErrors, ht, hspec, h1, h2, h3]

/-- On a body whose four fields are absent or strings, `validateTaskInput`
finishes with the messages of the four checks in order, one message for a field
that breaks its rule and none for a field that keeps it. -/
theorem validateTaskInput_messages (e : Engine) (body : JsObject)
    (hempty : e.validDate (JsVal.str "") = false)
    (ht : isTextOrAbsent (body.get "title") = true)
    (hd : isTextOrAbsent (body.get "description") = true)
    (hu : isTextOrAbsent (body.get "dueDate") = true) :
    ∃ t d u p : List String,
      validateTaskInput e body = finish (t ++ d ++ u ++ p) ∧
        t.length = (if specTitleOk (body.get "title") then 0 else 1) ∧
        d.length = (if specDescriptionOk (body.get "description") then 0 else 1) ∧
        u.length = (if specDueDateOk e (body.get "dueDate") then 0 else 1) ∧
        p.length = (if specPriorityOk (body.get "priority") then 0 else 1) := by
  obtain ⟨t, hteq, htlen, htiff⟩ := titleErrors_text e (body.get "title") ht
  obtain ⟨hdlen, hdiff⟩ := descriptionErrors_text e (body.get "description") hd
  obtain ⟨hulen, huiff⟩ := dueDateErrors_text e (body.get "dueDate") hempty hu
  obtain ⟨hplen, hpiff⟩ := priorityErrors_spec (body.get "priority")
  have key : ∀ (l : List String) (b : Bool), l.length ≤ 1 → (l = [] ↔ b = true) →
      l.length = (if b then 0 else 1) := by
    intro l b hl hiff
    cases b with
    | true => simp [hiff.mpr rfl]
    | false =>
      have hne : l ≠ [] := fun h => by simpa using hiff.mp h
      have : l.length ≠ 0 := fun h => hne (List.length_eq_zero.mp h)
      simp only [Bool.false_eq_true, if_false]
      omega
  refine ⟨t, descriptionErrors e (body.get "description"), dueDateErrors e (body.get "dueDate"),
    priorityErrors (body.get "priority"), ?_, key _ _ htlen htiff, key _ _ hdlen hdiff,
    key _ _ hulen huiff, key _ _ hplen hpiff⟩
  simp [validateTaskInput, hteq]

/-- C13 (the code at the failing input): on the body
`{title: 123, dueDate: '2024-01-15', priority: 'Low'}` `validateTaskInput`
neither calls `next()` nor produces an errors list: `title.trim()` raises. -/
theorem numeric_title_raises :
    validateTaskInput exampleEngine
        [("title", JsVal.num 123), ("dueDate", JsVal.str "2024-01-15"),
         ("priority", JsVal.str "Low")] =
      Outcome.threw "title.trim is not a function" := by
  decide

/-- C14: for a body whose title, description, due date and priority are absent
or strings, `validateTaskInput` calls `next()` exactly when the title is
non-empty after trimming and at most 200 characters, the description is absent
or at most 1000 characters, the due date parses to a valid date and the
priority is 'Low', 'Medium' or 'High'; otherwise it responds 400 with
`{success: false, message: 'Validation failed', errors}` and a non-empty
`errors`, and the POST and PUT routes end there with the database unchanged. -/
theorem validateTaskInput_next_iff (e : Engine) (body : JsObject)
    (hempty : e.validDate (JsVal.str "") = false)
    (ht : isTextOrAbsent (body.get "title") = true)
    (hd : isTextOrAbsent (body.get "description") = true)
    (hu : isTextOrAbsent (body.get "dueDate") = true)
    (hp : isTextOrAbsent (body.get "priority") = true) :
    (validateTaskInput e body = Outcome.next ↔ specTaskInputOk e body = true) ∧
      (specTaskInputOk e body = false →
        ∃ errors : List String, errors ≠ [] ∧
          validateTaskInput e body =
            Outcome.responded
              { status := 400, success := false, message := "Validation failed",
                errors := errors } ∧
          ∀ (dbErrors : TaskRoutes.DbErrors) (schemaError : TaskRoutes.Task → Option String)
            (freshId : String) (now : Int) (db : TaskRoutes.Db) (caller id : String),
            TaskRoutes.postRoute e schemaError freshId now db caller body =
                (TaskRoutes.RouteResult.invalid
                  { status := 400, success := false, message := "Validation failed",
                    errors := errors }, db) ∧
              TaskRoutes.putRoute e dbErrors schemaError db caller id body =
                (TaskRoutes.RouteResult.invalid
                  { status := 400, success := false, message := "Validation failed",
                    errors := errors }, db)) := by
  have _ := hp
  obtain ⟨t, d, u, p, heq, htl, hdl, hul, hpl⟩ := validateTaskInput_messages e body hempty ht hd hu
  have hnil : (t ++ d ++ u ++ p = [] ↔ specTaskInputOk e body = true) := by
    rw [← List.length_eq_zero]
    simp only [List.length_append, htl, hdl, hul, hpl, specTaskInputOk]
    cases specTitleOk (body.get "title") <;> cases specDescriptionOk (body.get "description") <;>
      cases specDueDateOk e (body.get "dueDate") <;> cases specPriorityOk (body.get "priority") <;>
      simp
  refine ⟨by rw [heq, finish_eq_next, hnil], ?_⟩
  intro hbad
  have hne : t ++ d ++ u ++ p ≠ [] := fun h => by simp [hnil.mp h] at hbad
  have hresp := finish_of_ne_nil _ hne
  refine ⟨t ++ d ++ u ++ p, hne, by rw [heq, hresp], ?_⟩
  intro dbErrors schemaError freshId now db caller id
  simp only [TaskRoutes.postRoute, TaskRoutes.putRoute, heq, hresp, and_self]

/-- Witness of C14: the body `{title: '  ', dueDate: '2024-01-15', priority: 'Low'}`,
whose title is blank, is answered with 400 by the POST route. -/
theorem validateTaskInput_next_iff_witness :
    (validateTaskInput exampleEngine
        [("title", JsVal.str "  "), ("dueDate", JsVal.str "2024-01-15"),
         ("priority", JsVal.str "Low")] = Outcome.next ↔
      specTaskInputOk exampleEngine
        [("title", JsVal.str "  "), ("dueDate", JsVal.str "2024-01-15"),
         ("priority", JsVal.str "Low")] = true) :=
  (validateTaskInput_next_iff exampleEngine
    [("title", JsVal.str "  "), ("dueDate", JsVal.str "2024-01-15"),
     ("priority", JsVal.str "Low")] (by decide) (by decide) (by decide) (by decide)
    (by decide)).1

/-- C15 (counterexample): the body
`{title: 'a', dueDate: '2024-01-15', priority: 'Low', status: 'Bogus'}` supplies
a status that is none of the three values, and `validateTaskInput` calls `next()`. -/
theorem invalid_status_passes_validation :
    JsObject.get [("title", JsVal.str "a"), ("dueDate", JsVal.str "2024-01-15"),
        ("priority", JsVal.str "Low"), ("status", JsVal.str "Bogus")] "status" =
        JsVal.str "Bogus" ∧
      JsVal.str "Bogus" ∉
        [JsVal.str "Pending", JsVal.str "In Progress", JsVal.str "Completed"] ∧
      validateTaskInput exampleEngine
        [("title", JsVal.str "a"), ("dueDate", JsVal.str "2024-01-15"),
         ("priority", JsVal.str "Low"), ("status", JsVal.str "Bogus")] = Outcome.next := by
  decide

/-- C15 (amended): `validateTaskInput` does not examine `status`: setting the
status of a body to any value leaves its outcome as it was, and the POST and
PUT routes pass a body to their handler exactly when it passes without regard
to its status. -/
theorem validateTaskInput_ignores_status (e : Engine) (body : JsObject) (status : JsVal) :
    validateTaskInput e (("status", status) :: body) = validateTaskInput e body ∧
      (validateTaskInput e (("status", status) :: body) = Outcome.next ↔
        validateTaskInput e body = Outcome.next) := by
  have h : validateTaskInput e (("status", status) :: body) = validateTaskInput e body := by
    simp [validateTaskInput, JsObject.get, List.lookup]
  exact ⟨h, by rw [h]⟩

/-- The password checks of `validateRegistration` push no message exactly
when the password is truthy, its length is neither below 6 nor above 128 and
its text has an uppercase letter, a lowercase letter and a digit; for a string
password that is: length between 6 and 128 and the three character classes.
Two passwords that agree on truthiness, length and the three classes get the
same messages, whatever special characters they hold.  Unless the name check
raises, the errors list of `validateRegistration` is the name messages, the
e-mail messages and these password messages. -/
theorem password_rule (e : Engine) :
    (∀ p : JsVal, passwordErrors e p = [] ↔
        (p.truthy = true ∧ numLt (p.lengthNum e) 6 = false ∧ numGt (p.lengthNum e) 128 = false ∧
          hasUpperCase (p.text e) = true ∧ hasLowerCase (p.text e) = true ∧
          hasNumbers (p.text e) = true)) ∧
      (∀ s : String, passwordErrors e (JsVal.str s) = [] ↔
        (6 ≤ utf16Length s ∧ utf16Length s ≤ 128 ∧ hasUpperCase s = true ∧
          hasLowerCase s = true ∧ hasNumbers s = true)) ∧
      (∀ p q : JsVal, p.truthy = q.truthy → p.lengthNum e = q.lengthNum e →
        hasUpperCase (p.text e) = hasUpperCase (q.text e) →
        hasLowerCase (p.text e) = hasLowerCase (q.text e) →
        hasNumbers (p.text e) = hasNumbers (q.text e) →
        passwordErrors e p = passwordErrors e q) ∧
      (∀ body : JsObject,
        (∃ err, validateRegistration e body = Outcome.threw err) ∨
          ∃ nameErrs, nameErrors e (body.get "name") = Except.ok nameErrs ∧
            validateRegistration e body =
              finish (nameErrs ++ emailErrors e (body.get "email") ++
                passwordErrors e (body.get "password"))) := by
  have general : ∀ p : JsVal, passwordErrors e p = [] ↔
      (p.truthy = true ∧ numLt (p.lengthNum e) 6 = false ∧ numGt (p.lengthNum e) 128 = false ∧
        hasUpperCase (p.text e) = true ∧ hasLowerCase (p.text e) = true ∧
        hasNumbers (p.text e) = true) := by
    intro p
    unfold passwordErrors
    cases p.truthy <;> cases numLt (p.lengthNum e) 6 <;> cases numGt (p.lengthNum e) 128 <;>
      cases hasUpperCase (p.text e) <;> cases hasLowerCase (p.text e) <;>
      cases hasNumbers (p.text e) <;> simp
  refine ⟨general, ?_, ?_, ?_⟩
  · intro s
    rw [general]
    simp only [JsVal.text, JsVal.lengthNum, numLt, numGt, truthy_str, decide_eq_false_iff_not]
    constructor
    · rintro ⟨_, h1, h2, h3⟩
      exact ⟨by omega, by omega, h3⟩
    · rintro ⟨h1, h2, h3⟩
      refine ⟨?_, by omega, by omega, h3⟩
      intro hs
      subst hs
      simp [utf16Length, utf16Len] at h1
  · intro p q h1 h2 h3 h4 h5
    simp only [passwordErrors, h1, h2, h3, h4, h5]
  · intro body
    cases hn : nameErrors e (body.get "name") with
    | error err => exact Or.inl ⟨err, by simp [validateRegistration, hn]⟩
    | ok errs => exact Or.inr ⟨errs, rfl, by simp [validateRegistration, hn]⟩

/-- C16 (the code at the failing input): on the body
`{name: 123, email: 'ann@x.com', password: 'abc'}` the password has three
characters and the password checks alone would push messages, but
`validateRegistration` reports no password error: `name.trim()` raises before
the password is looked at. -/
theorem weak_password_unreported_when_name_raises :
    utf16Length "abc" < 6 ∧
      passwordErrors exampleEngine (JsVal.str "abc") ≠ [] ∧
      validateRegistration exampleEngine
        [("name", JsVal.num 123), ("email", JsVal.str "ann@x.com"),
         ("password", JsVal.str "abc")] = Outcome.threw "name.trim is not a function" := by
  decide

/-- The name checks on a string: no exception. -/
theorem nameErrors_str (e : Engine) (s : String) :
    ∃ errs, nameErrors e (JsVal.str s) = Except.ok errs := by
  unfold nameErrors
  cases (JsVal.str s).truthy <;> simp [JsVal.trimLength]

/-- C17: for the body `{name, email, password}` of a registration whose
password is a non-empty string shorter than 6 characters that lacks an
uppercase letter, a lowercase letter or a digit, `validateRegistration`
responds 400 with `{success: false, message: 'Validation failed', errors}`
where `errors` holds both the length message and the character-class message. -/
theorem weak_short_password_rejected (e : Engine) (name email password : String)
    (hne : password ≠ "") (hshort : utf16Length password < 6)
    (hweak : hasUpperCase password = false ∨ hasLowerCase password = false ∨
      hasNumbers password = false) :
    ∃ errors : List String,
      validateRegistration e (registerBody name email password) =
          Outcome.responded
            { status := 400, success := false, message := "Validation failed",
              errors := errors } ∧
        "Password must be at least 6 characters long" ∈ errors ∧
        "Password must contain at least one uppercase letter, one lowercase letter, and one number"
          ∈ errors := by
  obtain ⟨nameErrs, hn⟩ := nameErrors_str e name
  have ht : (JsVal.str password).truthy = true := (truthy_str password).mpr hne
  have hlt : numLt ((JsVal.str password).lengthNum e) 6 = true := by
    simp only [JsVal.lengthNum, numLt, decide_eq_true_eq]
    omega
  have hcls : (!hasUpperCase password || !hasLowerCase password || !hasNumbers password) = true := by
    rcases hweak with h | h | h <;> simp [h]
  have hpw : passwordErrors e (JsVal.str password) =
      ["Password must be at least 6 characters long",
       "Password must contain at least one uppercase letter, one lowercase letter, and one number"] := by
    simp only [passwordErrors, ht, hlt, JsVal.text, hcls]
    simp
  have hbody : validateRegistration e (registerBody name email password) =
      finish (nameErrs ++ emailErrors e (JsVal.str email) ++ passwordErrors e (JsVal.str password)) := by
    simp [validateRegistration, registerBody, JsObject.get, List.lookup, hn]
  refine ⟨nameErrs ++ emailErrors e (JsVal.str email) ++ passwordErrors e (JsVal.str password),
    ?_, ?_, ?_⟩
  · rw [hbody]
    apply finish_of_ne_nil
    simp [hpw]
  · simp [hpw]
  · simp [hpw]

/-- Witness of C17: `register("Ann", "ann@x.com", "abc")`. -/
theorem weak_short_password_rejected_witness :
    ∃ errors : List String,
      validateRegistration exampleEngine (registerBody "Ann" "ann@x.com" "abc") =
          Outcome.responded
            { status := 400, success := false, message := "Validation failed",
              errors := errors } ∧
        "Password must be at least 6 characters long" ∈ errors ∧
        "Password must contain at least one uppercase letter, one lowercase letter, and one number"
          ∈ errors :=
  weak_short_password_rejected exampleEngine "Ann" "ann@x.com" "abc" (by decide) (by decide)
    (Or.inl (by decide))

/-- C18 (counterexample): the name `Al` followed by 49 spaces has trimmed length
2, which is between 2 and 50, and the name checks report
'Name cannot exceed 50 characters'. -/
theorem padded_name_rejected :
    utf16Len (jsTrim "Al                                                 ") = 2 ∧
      nameErrors exampleEngine (JsVal.str "Al                                                 ") =
        Except.ok ["Name cannot exceed 50 characters"] :=
  ⟨by decide, by rfl⟩

/-- C18 (amended): on a string name the name checks of `validateRegistration`
raise nothing and push no message exactly when the length of the name after
trimming is at least 2 and the length of the name as sent is at most 50. -/
theorem name_rule (e : Engine) (s : String) :
    nameErrors e (JsVal.str s) = Except.ok [] ↔
      (2 ≤ utf16Len (jsTrim s) ∧ utf16Length s ≤ 50) := by
  by_cases hs : s = ""
  · subst hs
    simp [nameErrors, JsVal.truthy, jsTrim, utf16Len]
  · have ht : (JsVal.str s).truthy = true := (truthy_str s).mpr hs
    simp only [nameErrors, ht, JsVal.trimLength, JsVal.lengthNum, numGt, Bool.not_true,
      Bool.false_eq_true, if_false, Bool.true_and, decide_eq_true_eq]
    by_cases h1 : utf16Len (jsTrim s) < 2 <;> by_cases h2 : (utf16Length s : Int) > 50 <;>
      simp [h1, h2] <;> omega

end Validation

/-! ## Properties of `GET /api/tasks` -/

namespace TaskRoutes

/-- For a pattern of ordinary characters, matching at the start of the text is
a case-insensitive comparison of the pattern with the start of the text. -/
theorem matchesAt_eq_startsWith (pat text : List Char) (h : ∀ c ∈ pat, c ≠ '.') :
    matchesAt pat text =
      Frontend.startsWith (text.map Char.toLower) (pat.map Char.toLower) := by
  induction pat generalizing text with
  | nil => cases text <;> rfl
  | cons p ps ih =>
    cases text with
    | nil => rfl
    | cons c cs =>
      have hp : p ≠ '.' := h p (List.mem_cons_self _ _)
      have hps : ∀ c ∈ ps, c ≠ '.' := fun c hc => h c (List.mem_cons_of_mem _ hc)
      simp only [matchesAt, patternCharMatches, List.map_cons, Frontend.startsWith, ih cs hps]
      have : (p == '.') = false := by simpa using hp
      simp only [this, Bool.false_eq_true, if_false]
      rw [Bool.beq_comm]

/-- For a search string without `.`, the regular expression of the fragment
selects the texts that contain the string case-insensitively. -/
theorem matchesSomewhere_eq_includes (pat text : List Char) (h : ∀ c ∈ pat, c ≠ '.') :
    matchesSomewhere pat text =
      Frontend.includes (text.map Char.toLower) (pat.map Char.toLower) := by
  induction text with
  | nil => cases pat <;> rfl
  | cons c cs ih =>
    rw [matchesSomewhere, matchesAt_eq_startsWith pat (c :: cs) h, ih]
    rfl

/-- C19 (the code at the failing input): in a store holding alice's tasks
'Write report' and 'Buy milk', `search=.` selects both although neither title
nor description contains a dot, because the search string is run as a regular
expression; `search=milk` selects only 'Buy milk'. -/
theorem search_dot_selects_every_task :
    find exampleOps
        { tasks := [exampleTask "t1" "Write report", exampleTask "t2" "Buy milk"], users := [] }
        (getFilter "alice" [("search", JsVal.str ".")]) =
        [exampleTask "t1" "Write report", exampleTask "t2" "Buy milk"] ∧
      Frontend.includes (Frontend.toLowerCase "Write report") (Frontend.toLowerCase ".") = false ∧
      Frontend.includes (Frontend.toLowerCase "Buy milk") (Frontend.toLowerCase ".") = false ∧
      Frontend.includes (Frontend.toLowerCase "") (Frontend.toLowerCase ".") = false ∧
      find exampleOps
        { tasks := [exampleTask "t1" "Write report", exampleTask "t2" "Buy milk"], users := [] }
        (getFilter "alice" [("search", JsVal.str "milk")]) =
        [exampleTask "t2" "Buy milk"] := by
  decide

/-- For a request whose sort key is not the name `__proto__`, the sort object
has exactly one (key, direction) pair, with direction 1 exactly when
`sortOrder` is the string 'asc' and -1 otherwise; without `sortBy` and
`sortOrder` the pair is (`createdAt`, -1), and then three tasks of the caller
created one after the other are returned latest first. -/
theorem getSort_direction (e : Engine) (query : JsObject) :
    ((if query.get "sortBy" = JsVal.undefined then JsVal.str "createdAt"
        else query.get "sortBy").text e ≠ "__proto__" →
        ∃ key dir, getSort e query = [(key, dir)] ∧ (dir = 1 ∨ dir = -1) ∧
          (dir = 1 ↔ query.get "sortOrder" = JsVal.str "asc")) ∧
      (query.get "sortBy" = JsVal.undefined → query.get "sortOrder" = JsVal.undefined →
        getSort e query = [("createdAt", -1)]) ∧
      (∀ (ops : QueryOps) (filterError : Filter → Option String)
          (fieldOrder : String → Task → Task → Ordering) (users : List User) (caller : String)
          (t1 t2 t3 : Task),
        t1.user = caller → t2.user = caller → t3.user = caller →
        t1.createdAt < t2.createdAt → t2.createdAt < t3.createdAt →
        filterError (getFilter caller []) = none →
        getHandler e ops filterError fieldOrder { tasks := [t1, t2, t3], users := users }
            caller [] =
          { status := 200, success := true, message := none,
            data := Payload.tasks
              ([t3, t2, t1].map (populate { tasks := [t1, t2, t3], users := users })),
            error := none }) := by
  refine ⟨?_, ?_, ?_⟩
  · intro hkey
    by_cases h : query.get "sortOrder" = JsVal.str "asc"
    · refine ⟨(if query.get "sortBy" = JsVal.undefined then JsVal.str "createdAt"
        else query.get "sortBy").text e, 1, ?_, Or.inl rfl, by simp [h]⟩
      simp only [getSort, hkey, if_false, h]
      simp
    · refine ⟨(if query.get "sortBy" = JsVal.undefined then JsVal.str "createdAt"
        else query.get "sortBy").text e, -1, ?_, Or.inr rfl, by simp [h]⟩
      by_cases hu : query.get "sortOrder" = JsVal.undefined <;>
        simp [getSort, hkey, h, hu]
  · intro h1 h2
    simp [getSort, h1, h2, JsVal.text]
  · intro ops filterError fieldOrder users caller t1 t2 t3 hu1 hu2 hu3 h12 h23 hfe
    have h13 : t1.createdAt < t3.createdAt := lt_trans h12 h23
    have c12 : compare t1.createdAt t2.createdAt = Ordering.lt := compare_lt_iff_lt.mpr h12
    have c23 : compare t2.createdAt t3.createdAt = Ordering.lt := compare_lt_iff_lt.mpr h23
    have c13 : compare t1.createdAt t3.createdAt = Ordering.lt := compare_lt_iff_lt.mpr h13
    have hfilter : getFilter caller [] = [("user", Constraint.owner caller)] := by
      simp [getFilter, JsObject.get, JsVal.truthy]
    have hfind : find ops { tasks := [t1, t2, t3], users := users }
        [("user", Constraint.owner caller)] = [t1, t2, t3] := by
      simp [find, Filter.matches, Constraint.holds, hu1, hu2, hu3]
    have hsort : getSort e [] = [("createdAt", -1)] := by
      simp [getSort, JsObject.get, JsVal.text]
    rw [hfilter] at hfe
    simp only [getHandler, hfilter, hfe, hfind, hsort]
    have hlt : (Ordering.lt != Ordering.lt) = false := by decide
    simp [sortDocs, insertDoc, inOrder, c12, c23, c13, hlt]

/-- C20 (the code at the failing input): for `GET /tasks?sortBy=__proto__` the
sort object has no (key, direction) pair at all, and three tasks of the caller
created at times 1, 2 and 3 are returned in the order of the collection. -/
theorem proto_sort_key_gives_no_pair :
    getSort exampleEngine [("sortBy", JsVal.str "__proto__")] = [] ∧
      getHandler exampleEngine exampleOps (fun _ => none) (fun _ _ _ => Ordering.eq)
          { tasks := [{ exampleTask "t1" "a" with createdAt := 1 },
                      { exampleTask "t2" "b" with createdAt := 2 },
                      { exampleTask "t3" "c" with createdAt := 3 }], users := [] } "alice"
          [("sortBy", JsVal.str "__proto__")] =
        { status := 200, success := true, message := none,
          data := Payload.tasks
            [{ task := { exampleTask "t1" "a" with createdAt := 1 }, user := none },
             { task := { exampleTask "t2" "b" with createdAt := 2 }, user := none },
             { task := { exampleTask "t3" "c" with createdAt := 3 }, user := none }],
          error := none } := by
  decide

end TaskRoutes

/-! ## Properties of the routes: sort key, create and list, repeated delete -/

namespace TaskRoutes

/-- C21 (counterexample): for `sortBy=foo`, which is no field of a task, the
sort key of the query is `foo`, not `createdAt`. -/
theorem unknown_sort_key_is_used :
    "foo" ∉ ["title", "description", "dueDate", "priority", "status", "createdAt",
        "updatedAt", "_id", "user"] ∧
      getSort exampleEngine [("sortBy", JsVal.str "foo")] = [("foo", -1)] := by
  decide

/-- C21 (amended): for a request whose `sortBy`, as a property name, is not
`__proto__`, the sort key of GET /tasks is the string form of the `sortBy`
value as it was supplied, whatever it is (for a string, the string itself);
it is `createdAt` when `sortBy` is absent. -/
theorem getSort_key (e : Engine) (query : JsObject)
    (hkey : (if query.get "sortBy" = JsVal.undefined then JsVal.str "createdAt"
      else query.get "sortBy").text e ≠ "__proto__") :
    (getSort e query).map Prod.fst =
        [(if query.get "sortBy" = JsVal.undefined then JsVal.str "createdAt"
          else query.get "sortBy").text e] ∧
      (query.get "sortBy" = JsVal.undefined →
        (getSort e query).map Prod.fst = ["createdAt"]) ∧
      (∀ s : String, query.get "sortBy" = JsVal.str s →
        (getSort e query).map Prod.fst = [s]) := by
  have h1 : (getSort e query).map Prod.fst =
      [(if query.get "sortBy" = JsVal.undefined then JsVal.str "createdAt"
        else query.get "sortBy").text e] := by
    simp only [getSort, hkey, if_false]
    simp
  refine ⟨h1, ?_, ?_⟩
  · intro h
    rw [h1]
    simp [h, JsVal.text]
  · intro s h
    rw [h1]
    simp [h, JsVal.text]

/-- Witness of C21 (amended): `sortBy=foo`. -/
theorem getSort_key_witness :
    (getSort exampleEngine [("sortBy", JsVal.str "foo")]).map Prod.fst = ["foo"] :=
  (getSort_key exampleEngine [("sortBy", JsVal.str "foo")] (by decide)).2.2 "foo" (by decide)

/-- C22: a create request that passes `validateTaskInput` and the schema and
whose status is absent or empty creates a task with status 'Pending', with the
title, due date and priority of the body, with the description of the body or
'' when that is absent or empty, and owned by the caller; created in an empty
store, it is the one task a following GET /tasks of the owner returns. -/
theorem create_then_list (e : Engine) (ops : QueryOps) (filterError : Filter → Option String)
    (fieldOrder : String → Task → Task → Ordering) (schemaError : Task → Option String)
    (freshId : String) (now : Int) (users : List User) (caller : String) (body : JsObject)
    (hvalid : Validation.validateTaskInput e body = Validation.Outcome.next)
    (hstatus : (body.get "status").truthy = false)
    (hschema : schemaError
      { _id := freshId, title := body.get "title",
        description := (body.get "description").or (JsVal.str ""),
        dueDate := body.get "dueDate", priority := body.get "priority",
        status := JsVal.str "Pending", user := caller, createdAt := now } = none)
    (hfilter : filterError (getFilter caller []) = none) :
    ∃ t : Task,
      t.status = JsVal.str "Pending" ∧ t.title = body.get "title" ∧
        t.dueDate = body.get "dueDate" ∧ t.priority = body.get "priority" ∧
        t.description = (body.get "description").or (JsVal.str "") ∧ t.user = caller ∧
        postRoute e schemaError freshId now { tasks := [], users := users } caller body =
          (RouteResult.handled
            { status := 201, success := true, message := some "Task created successfully",
              data := Payload.task (some (populate { tasks := [t], users := users } t)),
              error := none },
            { tasks := [t], users := users }) ∧
        getHandler e ops filterError fieldOrder { tasks := [t], users := users } caller [] =
          { status := 200, success := true, message := none,
            data := Payload.tasks [populate { tasks := [t], users := users } t],
            error := none } := by
  have hor : (body.get "status").or (JsVal.str "Pending") = JsVal.str "Pending" := by
    simp [JsVal.or, hstatus]
  have hfl : getFilter caller [] = [("user", Constraint.owner caller)] := by
    simp [getFilter, JsObject.get, JsVal.truthy]
  rw [hfl] at hfilter
  refine ⟨{ _id := freshId, title := body.get "title",
            description := (body.get "description").or (JsVal.str ""),
            dueDate := body.get "dueDate", priority := body.get "priority",
            status := JsVal.str "Pending", user := caller, createdAt := now },
    rfl, rfl, rfl, rfl, rfl, rfl, ?_, ?_⟩
  · simp [postRoute, hvalid, postHandler, hor, hschema, findById]
  · simp [getHandler, hfl, hfilter, find, Filter.matches, Constraint.holds, getSort,
      JsObject.get, JsVal.text, sortDocs, insertDoc]

/-- Witness of C22: alice creates 'Buy milk', due 2024-01-15, priority Medium,
in an empty store. -/
theorem create_then_list_witness :
    ∃ t : Task,
      t.status = JsVal.str "Pending" ∧ t.title = JsVal.str "Buy milk" ∧
        getHandler exampleEngine exampleOps (fun _ => none) (fun _ _ _ => Ordering.eq)
            { tasks := [t], users := [] } "alice" [] =
          { status := 200, success := true, message := none,
            data := Payload.tasks [populate { tasks := [t], users := [] } t], error := none } := by
  obtain ⟨t, h1, h2, _, _, _, _, _, h8⟩ :=
    create_then_list exampleEngine exampleOps (fun _ => none) (fun _ _ _ => Ordering.eq)
      (fun _ => none) "t1" 0 [] "alice"
      [("title", JsVal.str "Buy milk"), ("dueDate", JsVal.str "2024-01-15"),
       ("priority", JsVal.str "Medium")] (by decide) (by decide) rfl rfl
  exact ⟨t, h1, h2, h8⟩

theorem deleteFirst_sublist (id : String) (ts : List Task) :
    (deleteFirst id ts).Sublist ts := by
  induction ts with
  | nil => exact List.Sublist.refl _
  | cons t ts ih =>
    unfold deleteFirst
    split
    · exact List.sublist_cons_self t ts
    · exact List.Sublist.cons₂ t ih

theorem deleteFirst_no_id (id : String) (ts : List Task)
    (h : (ts.map (fun t => t._id)).Nodup) : ∀ t ∈ deleteFirst id ts, t._id ≠ id := by
  induction ts with
  | nil => intro t ht; simp [deleteFirst] at ht
  | cons a as ih =>
    have hnd : a._id ∉ as.map (fun t => t._id) ∧ (as.map (fun t => t._id)).Nodup :=
      List.nodup_cons.mp h
    unfold deleteFirst
    split
    · next heq =>
      have ha : a._id = id := by simpa using heq
      intro t ht hid
      exact hnd.1 (List.mem_map.mpr ⟨t, ht, hid.trans ha.symm⟩)
    · next hne =>
      have ha : a._id ≠ id := by simpa using hne
      intro t ht
      rcases List.mem_cons.mp ht with h1 | h1
      · rw [h1]; exact ha
      · exact ih hnd.2 t h1

/-- C23 (counterexample): two DELETE requests of `alice` for her task `t1` that
overlap both pass the ownership check before either removal runs, and both
answer 200; and deleting the id `abc`, which is not among her tasks and is not
written as an object id, answers 400, not 404. -/
theorem overlapping_deletes_both_succeed :
    (overlappingDeletes noDbErrors { tasks := [exampleTask "t1" "a"], users := [] }
        "alice" "t1").1.status = 200 ∧
      (overlappingDeletes noDbErrors { tasks := [exampleTask "t1" "a"], users := [] }
        "alice" "t1").2.1.status = 200 ∧
      (∀ t ∈ ({ tasks := [], users := [] } : Db).tasks, ¬ (t._id = "abc" ∧ t.user = "alice")) ∧
      (deleteHandler castErrors { tasks := [], users := [] } "alice" "abc").1.status = 400 := by
  decide

/-- C23 (amended): in a store with distinct ids and for a DELETE request that no
other request overlaps: if the lookup runs, deleting an id that is not among
the caller's tasks answers 404 'Task not found or unauthorized' and leaves the
store as it was; if the lookup rejects, the answer is 400 'Error deleting task'
and the store is as it was; and after a delete that answered 200 the store
holds no task with that id, its ids are still distinct, and a further delete
of the same id by the same caller answers that 404 and changes nothing. -/
theorem delete_never_succeeds_twice (errors : DbErrors) (db : Db) (caller id : String)
    (hnodup : (db.tasks.map (fun t => t._id)).Nodup) :
    (errors.lookup id = none → (∀ t ∈ db.tasks, ¬ (t._id = id ∧ t.user = caller)) →
        deleteHandler errors db caller id =
          ({ status := 404, success := false, message := some "Task not found or unauthorized",
             data := Payload.absent, error := none }, db)) ∧
      (∀ msg, errors.lookup id = some msg →
        deleteHandler errors db caller id =
          ({ status := 400, success := false, message := some "Error deleting task",
             data := Payload.absent, error := some msg }, db)) ∧
      ((deleteHandler errors db caller id).1.status = 200 →
        (∀ t ∈ (deleteHandler errors db caller id).2.tasks, t._id ≠ id) ∧
          (((deleteHandler errors db caller id).2.tasks.map (fun t => t._id)).Nodup) ∧
          deleteHandler errors (deleteHandler errors db caller id).2 caller id =
            ({ status := 404, success := false,
               message := some "Task not found or unauthorized",
               data := Payload.absent, error := none }, (deleteHandler errors db caller id).2) ∧
          (deleteHandler errors (deleteHandler errors db caller id).2 caller id).1.status ≠
            200) := by
  refine ⟨?_, ?_, ?_⟩
  · intro hl h
    simp [deleteHandler, deleteLookup, hl, findOne_eq_none db caller id h, notFound]
  · intro msg hl
    simp [deleteHandler, deleteLookup, hl]
  · intro hok
    cases hl : errors.lookup id with
    | some msg => simp [deleteHandler, deleteLookup, hl] at hok
    | none =>
      cases hf : findOne db id caller with
      | none => simp [deleteHandler, deleteLookup, hl, hf, notFound] at hok
      | some found =>
        cases hr : errors.remove id with
        | some msg => simp [deleteHandler, deleteLookup, deleteRemove, hl, hf, hr] at hok
        | none =>
          have hdb : (deleteHandler errors db caller id).2 =
              { db with tasks := deleteFirst id db.tasks } := by
            simp [deleteHandler, deleteLookup, deleteRemove, hl, hf, hr]
          have hno := deleteFirst_no_id id db.tasks hnodup
          have hnone : findOne { db with tasks := deleteFirst id db.tasks } id caller = none :=
            findOne_eq_none _ caller id (fun t ht hc => hno t ht hc.1)
          rw [hdb]
          refine ⟨hno, ?_, ?_, ?_⟩
          · exact List.Nodup.sublist ((deleteFirst_sublist id db.tasks).map _) hnodup
          · simp [deleteHandler, deleteLookup, hl, hnone, notFound]
          · simp [deleteHandler, deleteLookup, hl, hnone, notFound]

/-- Witness of C23 (amended): alice deletes her task `t1` twice, one request
after the other. -/
theorem delete_never_succeeds_twice_witness :
    (deleteHandler noDbErrors { tasks := [exampleTask "t1" "a"], users := [] }
        "alice" "t1").1.status = 200 ∧
      (deleteHandler noDbErrors
        (deleteHandler noDbErrors { tasks := [exampleTask "t1" "a"], users := [] }
          "alice" "t1").2
        "alice" "t1").1.status ≠ 200 := by
  have h := delete_never_succeeds_twice noDbErrors
    { tasks := [exampleTask "t1" "a"], users := [] } "alice" "t1" (by decide)
  have hok : (deleteHandler noDbErrors { tasks := [exampleTask "t1" "a"], users := [] }
      "alice" "t1").1.status = 200 := by decide
  exact ⟨hok, (h.2.2 hok).2.2.2⟩

end TaskRoutes

namespace Validation

/-- C30 (the code at the failing inputs): each of the three validators raises
on a body with a name or title that is present but not a string:
`validateProfileUpdate` on `{name: null}`, `validateRegistration` on
`{name: 123, email: 'ann@x.com', password: 'Abcdef1'}` and `validateTaskInput`
on `{title: true, dueDate: '2024-01-15', priority: 'Low'}`. -/
theorem validators_raise_on_non_strings :
    validateProfileUpdate exampleEngine [("name", JsVal.null)] =
        Outcome.threw "Cannot read properties of null (reading 'trim')" ∧
      validateRegistration exampleEngine
        [("name", JsVal.num 123), ("email", JsVal.str "ann@x.com"),
         ("password", JsVal.str "Abcdef1")] = Outcome.threw "name.trim is not a function" ∧
      validateTaskInput exampleEngine
        [("title", JsVal.bool true), ("dueDate", JsVal.str "2024-01-15"),
         ("priority", JsVal.str "Low")] = Outcome.threw "title.trim is not a function" := by
  decide

end Validation

/-! ## Properties of the client -/

namespace Frontend

theorem insertSorted_perm {α : Type} (cmp : α → α → Option Int) (a : α) (l : List α) :
    (insertSorted cmp a l).Perm (a :: l) := by
  induction l with
  | nil => exact List.Perm.refl _
  | cons b bs ih =>
    unfold insertSorted
    split
    · exact List.Perm.refl _
    · exact (List.Perm.cons b ih).trans (List.Perm.swap a b bs)

theorem jsSort_perm {α : Type} (cmp : α → α → Option Int) (l : List α) :
    (jsSort cmp l).Perm l := by
  induction l with
  | nil => exact List.Perm.refl _
  | cons a as ih =>
    unfold jsSort
    exact (insertSorted_perm cmp a _).trans (List.Perm.cons a ih)

/-- Three filters whose predicates split every element into exactly one class
rearrange the list. -/
theorem filter_three_perm {α : Type} (p q r : α → Bool)
    (h : ∀ x, (p x = true ∧ q x = false ∧ r x = false) ∨
      (p x = false ∧ q x = true ∧ r x = false) ∨ (p x = false ∧ q x = false ∧ r x = true))
    (l : List α) : (l.filter p ++ l.filter q ++ l.filter r).Perm l := by
  induction l with
  | nil => exact List.Perm.refl _
  | cons x xs ih =>
    rcases h x with ⟨hp, hq, hr⟩ | ⟨hp, hq, hr⟩ | ⟨hp, hq, hr⟩
    · simp only [List.filter_cons, hp, hq, hr, if_true, Bool.false_eq_true, if_false,
        List.cons_append]
      exact List.Perm.cons x ih
    · simp only [List.filter_cons, hp, hq, hr, if_true, Bool.false_eq_true, if_false,
        List.append_assoc, List.cons_append]
      refine List.perm_middle.trans (List.Perm.cons x ?_)
      simpa only [List.append_assoc] using ih
    · simp only [List.filter_cons, hp, hq, hr, if_true, Bool.false_eq_true, if_false]
      exact List.perm_middle.trans (List.Perm.cons x ih)

/-- The three category predicates of `getTasksByCategory` split every task into
exactly one class. -/
theorem category_exclusive (clock : Clock) (task : Task) :
    ((task.status != "Completed" && !Tasks.isTaskOverdue clock task) = true ∧
        Tasks.isTaskOverdue clock task = false ∧ (task.status == "Completed") = false) ∨
      ((task.status != "Completed" && !Tasks.isTaskOverdue clock task) = false ∧
        Tasks.isTaskOverdue clock task = true ∧ (task.status == "Completed") = false) ∨
      ((task.status != "Completed" && !Tasks.isTaskOverdue clock task) = false ∧
        Tasks.isTaskOverdue clock task = false ∧ (task.status == "Completed") = true) := by
  unfold Tasks.isTaskOverdue
  by_cases hc : task.status = "Completed"
  · simp [hc]
  · cases hd : dateLt task.dueDate clock.today <;> simp [hc]

/-- C5: in `getTasksByCategory`, with the clock fixed, the active, overdue and
completed lists together are a rearrangement of the searched and
priority-filtered task list, their lengths add up to `total`, a task is in
that list exactly when it is in one of the three, and no task is in two. -/
theorem categories_partition (clock : Clock) (tasks : List Task)
    (searchTerm priorityFilter sortBy : String) :
    ((Tasks.getTasksByCategory clock tasks searchTerm priorityFilter sortBy).active ++
        (Tasks.getTasksByCategory clock tasks searchTerm priorityFilter sortBy).overdue ++
        (Tasks.getTasksByCategory clock tasks searchTerm priorityFilter sortBy).completed).Perm
        (Tasks.filteredTasks tasks searchTerm priorityFilter) ∧
      (Tasks.getTasksByCategory clock tasks searchTerm priorityFilter sortBy).active.length +
          (Tasks.getTasksByCategory clock tasks searchTerm priorityFilter sortBy).overdue.length +
          (Tasks.getTasksByCategory clock tasks searchTerm priorityFilter sortBy).completed.length =
        (Tasks.getTasksByCategory clock tasks searchTerm priorityFilter sortBy).total ∧
      (Tasks.getTasksByCategory clock tasks searchTerm priorityFilter sortBy).total =
        (Tasks.filteredTasks tasks searchTerm priorityFilter).length ∧
      (∀ t : Task, t ∈ Tasks.filteredTasks tasks searchTerm priorityFilter ↔
        (t ∈ (Tasks.getTasksByCategory clock tasks searchTerm priorityFilter sortBy).active ∨
          t ∈ (Tasks.getTasksByCategory clock tasks searchTerm priorityFilter sortBy).overdue ∨
          t ∈ (Tasks.getTasksByCategory clock tasks searchTerm priorityFilter sortBy).completed)) ∧
      (∀ t : Task,
        ¬ (t ∈ (Tasks.getTasksByCategory clock tasks searchTerm priorityFilter sortBy).active ∧
          t ∈ (Tasks.getTasksByCategory clock tasks searchTerm priorityFilter sortBy).overdue) ∧
        ¬ (t ∈ (Tasks.getTasksByCategory clock tasks searchTerm priorityFilter sortBy).active ∧
          t ∈ (Tasks.getTasksByCategory clock tasks searchTerm priorityFilter sortBy).completed) ∧
        ¬ (t ∈ (Tasks.getTasksByCategory clock tasks searchTerm priorityFilter sortBy).overdue ∧
          t ∈ (Tasks.getTasksByCategory clock tasks searchTerm priorityFilter sortBy).completed)) := by
  have hsort := jsSort_perm (Tasks.compareTasks sortBy)
    (Tasks.filteredTasks tasks searchTerm priorityFilter)
  have hthree := filter_three_perm
    (fun task : Task => task.status != "Completed" && !Tasks.isTaskOverdue clock task)
    (fun task : Task => Tasks.isTaskOverdue clock task)
    (fun task : Task => task.status == "Completed") (category_exclusive clock)
    (jsSort (Tasks.compareTasks sortBy) (Tasks.filteredTasks tasks searchTerm priorityFilter))
  have hperm := hthree.trans hsort
  refine ⟨hperm, ?_, hsort.length_eq, ?_, ?_⟩
  · have hlen := hthree.length_eq
    simp only [List.length_append] at hlen
    exact hlen
  · intro t
    rw [← hperm.mem_iff]
    simp only [Tasks.getTasksByCategory, List.mem_append, or_assoc]
  · intro t
    simp only [Tasks.getTasksByCategory, List.mem_filter]
    refine ⟨?_, ?_, ?_⟩ <;> rintro ⟨⟨_, ha⟩, ⟨_, hb⟩⟩ <;>
      rcases category_exclusive clock t with ⟨h1, h2, h3⟩ | ⟨h1, h2, h3⟩ | ⟨h1, h2, h3⟩ <;>
      simp_all

/-- C6: the three overdue predicates (`isTaskOverdue` of Dashboard and of
Tasks, `isOverdue` of TaskCard) return the same value on every task and clock,
and return `false` on every task whose status is 'Completed'. -/
theorem overdue_never_completed (clock : Clock) (task : Task) :
    Dashboard.isTaskOverdue clock task = Tasks.isTaskOverdue clock task ∧
      Tasks.isTaskOverdue clock task = TaskCard.isOverdue clock task ∧
      (task.status = "Completed" →
        Dashboard.isTaskOverdue clock task = false ∧ Tasks.isTaskOverdue clock task = false ∧
          TaskCard.isOverdue clock task = false) := by
  refine ⟨rfl, rfl, ?_⟩
  intro h
  simp [Dashboard.isTaskOverdue, Tasks.isTaskOverdue, TaskCard.isOverdue, h]

/-- Witness of C6: a completed task due on 1970-01-01, seen on 2024-01-15. -/
theorem overdue_never_completed_witness :
    Dashboard.isTaskOverdue { now := 1705320000000, tzMinutes := 0 }
        { _id := "t1", title := "a", description := "", dueDate := some 0, priority := "Low",
          status := "Completed" } = false :=
  ((overdue_never_completed { now := 1705320000000, tzMinutes := 0 }
    { _id := "t1", title := "a", description := "", dueDate := some 0, priority := "Low",
      status := "Completed" }).2.2 rfl).1

/-- How `isTaskOverdue` compares a due date stored as midnight UTC of day `d`
with the caller's local date: for an offset east of UTC (or zero) the task is
overdue exactly when `d` is before the local date, for an offset west of UTC
exactly when `d` is not after the local date. -/
theorem isTaskOverdue_midnight_utc (clock : Clock) (task : Task) (d : Int)
    (hdue : task.dueDate = some (d * msPerDay)) (hstatus : task.status ≠ "Completed") :
    (0 ≤ clock.tzMinutes → clock.tzMinutes < 1440 →
        (Dashboard.isTaskOverdue clock task = true ↔ d < clock.localDate)) ∧
      (clock.tzMinutes < 0 → -1440 < clock.tzMinutes →
        (Dashboard.isTaskOverdue clock task = true ↔ d ≤ clock.localDate)) := by
  have hs : (task.status != "Completed") = true := by simpa using hstatus
  simp only [Dashboard.isTaskOverdue, hdue, dateLt, Clock.today, msPerDay, hs, Bool.and_true,
    decide_eq_true_eq]
  constructor <;> intro h1 h2 <;> constructor <;> intro h <;> omega

/-- C7 (the code at the failing input): for a caller at UTC-5 at 12:00 local
time on 2024-01-15 (day 19737), a pending task due on 2024-01-15, stored as
midnight UTC of that day, is reported overdue although its due date equals the
caller's local date. -/
theorem overdue_on_due_day_west_of_utc :
    Clock.localDate { now := 19737 * 86400000 + 17 * 3600000, tzMinutes := -300 } = 19737 ∧
      Dashboard.isTaskOverdue { now := 19737 * 86400000 + 17 * 3600000, tzMinutes := -300 }
        { _id := "t1", title := "a", description := "", dueDate := some (19737 * 86400000),
          priority := "Low", status := "Pending" } = true := by
  constructor <;> decide

/-- C8: when the create call succeeds with task `newTask`, the task list after
`addTask` is `newTask` followed by the prior list: its head is `newTask`, its
tail is the prior list, its length is one more. -/
theorem addTask_prepends (s : useTasks.State) (reply : Except Thrown (ApiReply Task))
    (newTask : Task) (h : taskService.createTask reply = Except.ok newTask) :
    (useTasks.addTask true reply s).1.tasks = newTask :: s.tasks ∧
      (useTasks.addTask true reply s).1.tasks.length = s.tasks.length + 1 ∧
      (useTasks.addTask true reply s).1.tasks.head? = some newTask ∧
      (useTasks.addTask true reply s).1.tasks.tail = s.tasks ∧
      (useTasks.addTask true reply s).2 =
        Except.ok { success := true, message := "Task added successfully!" } := by
  simp [useTasks.addTask, useTasks.begin, h]

/-- Witness of C8: a one-element list and a successful reply carrying task `t2`. -/
theorem addTask_prepends_witness :
    (useTasks.addTask true
        (Except.ok { success := true, message := none,
                     data := { _id := "t2", title := "b", description := "", dueDate := some 0,
                               priority := "Low", status := "Pending" } })
        { tasks := [{ _id := "t1", title := "a", description := "", dueDate := some 0,
                      priority := "High", status := "Pending" }],
          loading := false, error := none }).1.tasks =
      [{ _id := "t2", title := "b", description := "", dueDate := some 0, priority := "Low",
         status := "Pending" },
       { _id := "t1", title := "a", description := "", dueDate := some 0, priority := "High",
         status := "Pending" }] :=
  (addTask_prepends
    { tasks := [{ _id := "t1", title := "a", description := "", dueDate := some 0,
                  priority := "High", status := "Pending" }],
      loading := false, error := none }
    (Except.ok { success := true, message := none,
                 data := { _id := "t2", title := "b", description := "", dueDate := some 0,
                           priority := "Low", status := "Pending" } })
    { _id := "t2", title := "b", description := "", dueDate := some 0, priority := "Low",
      status := "Pending" } rfl).1

/-- C9: when the update call succeeds with task `updatedTask`, the task list
after `updateTask` has the length of the prior list, holds at every position
`updatedTask` if the prior element there has `_id` equal to `taskId` and the
prior element otherwise, and is the prior list when no element has that id. -/
theorem updateTask_replaces_in_place (s : useTasks.State) (taskId : String)
    (reply : Except Thrown (ApiReply Task)) (updatedTask : Task)
    (h : taskService.updateTask reply = Except.ok updatedTask) :
    (useTasks.updateTask true taskId reply s).1.tasks.length = s.tasks.length ∧
      (∀ i : Nat, (useTasks.updateTask true taskId reply s).1.tasks[i]? =
        (s.tasks[i]?).map (fun task => if task._id = taskId then updatedTask else task)) ∧
      ((∀ task ∈ s.tasks, task._id ≠ taskId) →
        (useTasks.updateTask true taskId reply s).1.tasks = s.tasks) := by
  have htasks : (useTasks.updateTask true taskId reply s).1.tasks =
      s.tasks.map (fun task => if task._id = taskId then updatedTask else task) := by
    simp [useTasks.updateTask, useTasks.begin, h]
  rw [htasks]
  refine ⟨List.length_map _ _, fun i => List.getElem?_map _ _ _, ?_⟩
  intro hno
  conv_rhs => rw [← List.map_id s.tasks]
  apply List.map_congr_left
  intro t ht
  simp [hno t ht]

/-- Witness of C9: the second of two tasks is replaced, the first is kept. -/
theorem updateTask_replaces_in_place_witness :
    (useTasks.updateTask true "t2"
        (Except.ok { success := true, message := none,
                     data := { _id := "t2", title := "c", description := "", dueDate := some 0,
                               priority := "Low", status := "Completed" } })
        { tasks := [{ _id := "t1", title := "a", description := "", dueDate := some 0,
                      priority := "High", status := "Pending" },
                    { _id := "t2", title := "b", description := "", dueDate := some 0,
                      priority := "Low", status := "Pending" }],
          loading := false, error := none }).1.tasks.length = 2 :=
  (updateTask_replaces_in_place
    { tasks := [{ _id := "t1", title := "a", description := "", dueDate := some 0,
                  priority := "High", status := "Pending" },
                { _id := "t2", title := "b", description := "", dueDate := some 0,
                  priority := "Low", status := "Pending" }],
      loading := false, error := none } "t2"
    (Except.ok { success := true, message := none,
                 data := { _id := "t2", title := "c", description := "", dueDate := some 0,
                           priority := "Low", status := "Completed" } })
    { _id := "t2", title := "c", description := "", dueDate := some 0, priority := "Low",
      status := "Completed" } rfl).1

/-- C10: after a confirmed delete whose call succeeds, the task list is the
prior list with the elements whose `_id` equals `taskId` left out: it holds no
element with that id, it holds every other element of the prior list, and it
is a sublist of the prior list (same elements, same relative order). -/
theorem deleteTask_removes_by_id (s : useTasks.State) (taskId : String)
    (reply : Except Thrown (ApiReply Unit)) (r : ApiReply Unit)
    (h : taskService.deleteTask reply = Except.ok r) :
    (useTasks.deleteTask true true taskId reply s).1.tasks =
        s.tasks.filter (fun task => task._id != taskId) ∧
      (∀ task ∈ (useTasks.deleteTask true true taskId reply s).1.tasks, task._id ≠ taskId) ∧
      (∀ task ∈ s.tasks, task._id ≠ taskId →
        task ∈ (useTasks.deleteTask true true taskId reply s).1.tasks) ∧
      ((useTasks.deleteTask true true taskId reply s).1.tasks).Sublist s.tasks := by
  have htasks : (useTasks.deleteTask true true taskId reply s).1.tasks =
      s.tasks.filter (fun task => task._id != taskId) := by
    simp [useTasks.deleteTask, useTasks.begin, h]
  rw [htasks]
  refine ⟨rfl, ?_, ?_, List.filter_sublist _⟩
  · intro t ht
    simpa using (List.mem_filter.mp ht).2
  · intro t ht hne
    exact List.mem_filter.mpr ⟨ht, by simpa using hne⟩

/-- Witness of C10: the first of two tasks is deleted, the second remains. -/
theorem deleteTask_removes_by_id_witness :
    (useTasks.deleteTask true true "t1"
        (Except.ok { success := true, message := some "Task deleted successfully", data := () })
        { tasks := [{ _id := "t1", title := "a", description := "", dueDate := some 0,
                      priority := "High", status := "Pending" },
                    { _id := "t2", title := "b", description := "", dueDate := some 0,
                      priority := "Low", status := "Pending" }],
          loading := false, error := none }).1.tasks =
      List.filter (fun task => task._id != "t1")
        [{ _id := "t1", title := "a", description := "", dueDate := some 0, priority := "High",
           status := "Pending" },
         { _id := "t2", title := "b", description := "", dueDate := some 0, priority := "Low",
           status := "Pending" }] :=
  (deleteTask_removes_by_id
    { tasks := [{ _id := "t1", title := "a", description := "", dueDate := some 0,
                  priority := "High", status := "Pending" },
                { _id := "t2", title := "b", description := "", dueDate := some 0,
                  priority := "Low", status := "Pending" }],
      loading := false, error := none } "t1"
    (Except.ok { success := true, message := some "Task deleted successfully", data := () })
    { success := true, message := some "Task deleted successfully", data := () } rfl).1

/-- C11: when the service call of `addTask`, `updateTask` or `deleteTask`
rejects with `err`, the task list after the operation is the list before it,
the error state is the message of the server's response or, when there is
none, the operation's default message, and `err` is rethrown; while the call
is pending (`begin`) the list is the prior list as well. -/
theorem failed_call_keeps_list (s : useTasks.State) (taskId : String)
    (createReply updateReply : Except Thrown (ApiReply Task))
    (deleteReply : Except Thrown (ApiReply Unit)) (e1 e2 e3 : Thrown)
    (h1 : taskService.createTask createReply = Except.error e1)
    (h2 : taskService.updateTask updateReply = Except.error e2)
    (h3 : taskService.deleteTask deleteReply = Except.error e3) :
    ((useTasks.addTask true createReply s).1.tasks = s.tasks ∧
        (useTasks.addTask true createReply s).1.error =
          some (orDefault e1.responseMessage "Error adding task") ∧
        (useTasks.addTask true createReply s).2 = Except.error e1) ∧
      ((useTasks.updateTask true taskId updateReply s).1.tasks = s.tasks ∧
        (useTasks.updateTask true taskId updateReply s).1.error =
          some (orDefault e2.responseMessage "Error updating task") ∧
        (useTasks.updateTask true taskId updateReply s).2 = Except.error e2) ∧
      ((useTasks.deleteTask true true taskId deleteReply s).1.tasks = s.tasks ∧
        (useTasks.deleteTask true true taskId deleteReply s).1.error =
          some (orDefault e3.responseMessage "Error deleting task") ∧
        (useTasks.deleteTask true true taskId deleteReply s).2 = Except.error e3) ∧
      (useTasks.begin s).tasks = s.tasks := by
  simp [useTasks.addTask, useTasks.updateTask, useTasks.deleteTask, useTasks.begin, h1, h2, h3]

/-- Witness of C11: the server answers the create request with the message
'Server says no', the update request fails without a response, and the delete
request is answered with `success: false`. -/
theorem failed_call_keeps_list_witness :
    (useTasks.addTask true (Except.error (Thrown.http (some "Server says no")))
        { tasks := [{ _id := "t1", title := "a", description := "", dueDate := some 0,
                      priority := "High", status := "Pending" }],
          loading := false, error := none }).1.error = some "Server says no" ∧
      (useTasks.deleteTask true true "t1"
        (Except.ok { success := false, message := some "nope", data := () })
        { tasks := [{ _id := "t1", title := "a", description := "", dueDate := some 0,
                      priority := "High", status := "Pending" }],
          loading := false, error := none }).1.error = some "Error deleting task" := by
  have h := failed_call_keeps_list
    { tasks := [{ _id := "t1", title := "a", description := "", dueDate := some 0,
                  priority := "High", status := "Pending" }],
      loading := false, error := none } "t1"
    (Except.error (Thrown.http (some "Server says no"))) (Except.error (Thrown.http none))
    (Except.ok { success := false, message := some "nope", data := () })
    (Thrown.http (some "Server says no")) (Thrown.http none) (Thrown.plain "nope") rfl rfl rfl
  exact ⟨h.1.2.1, h.2.2.1.2.1⟩

/-- C12: when the confirmation is declined, `deleteTask` issues no request,
returns the state it was given (task list, loading flag and error) whatever
the server would have answered, throws nothing and resolves to
`{success: false, message: 'Deletion cancelled'}`; a delete that fails on the
server ends with an exception instead, which is a different outcome, and
`handleDeleteTask` shows no notification for the cancelled result. -/
theorem declined_delete_is_noop (api : Bool) (taskId : String)
    (reply failing : Except Thrown (ApiReply Unit)) (s : useTasks.State) (err : Thrown)
    (hfail : taskService.deleteTask failing = Except.error err) :
    useTasks.deleteTask false api taskId reply s =
        (s, Except.ok { success := false, message := "Deletion cancelled" }) ∧
      useTasks.issuesDeleteRequest false api = false ∧
      (useTasks.deleteTask true true taskId failing s).2 = Except.error err ∧
      (useTasks.deleteTask true true taskId failing s).2 ≠
        (useTasks.deleteTask false api taskId reply s).2 ∧
      App_backup.handleDeleteTask (useTasks.deleteTask false api taskId reply s).2 =
        Except.ok none := by
  simp [useTasks.deleteTask, useTasks.begin, useTasks.issuesDeleteRequest,
    App_backup.handleDeleteTask, hfail]

/-- Witness of C12: a declined delete of `t1`, compared with a delete the
server answers with an error. -/
theorem declined_delete_is_noop_witness :
    (useTasks.deleteTask false true "t1" (Except.ok { success := true, message := none, data := () })
        { tasks := [{ _id := "t1", title := "a", description := "", dueDate := some 0,
                      priority := "High", status := "Pending" }],
          loading := false, error := none }).1.tasks =
      [{ _id := "t1", title := "a", description := "", dueDate := some 0, priority := "High",
         status := "Pending" }] := by
  have h := declined_delete_is_noop true "t1"
    (Except.ok { success := true, message := none, data := () })
    (Except.error (Thrown.http (some "Server error")))
    { tasks := [{ _id := "t1", title := "a", description := "", dueDate := some 0,
                  priority := "High", status := "Pending" }],
      loading := false, error := none } (Thrown.http (some "Server error")) rfl
  rw [h.1]

/-! ### The dashboard lists -/

theorem insertSorted_pairwise {α : Type} (cmp : α → α → Option Int) (key : α → Int) (a : α)
    (l : List α) (hl : l.Pairwise (fun x y => key x ≤ key y))
    (h : ∀ b ∈ l, ((cmp a b).getD 0 ≤ 0 ↔ key a ≤ key b)) :
    (insertSorted cmp a l).Pairwise (fun x y => key x ≤ key y) := by
  induction l with
  | nil => simp [insertSorted]
  | cons b bs ih =>
    have hb := h b (List.mem_cons_self _ _)
    rw [List.pairwise_cons] at hl
    unfold insertSorted
    split
    · next hle =>
      have hab : key a ≤ key b := hb.mp hle
      refine List.Pairwise.cons ?_ (List.Pairwise.cons hl.1 hl.2)
      intro y hy
      rcases List.mem_cons.mp hy with h1 | h1
      · rw [h1]; exact hab
      · exact le_trans hab (hl.1 y h1)
    · next hnle =>
      have hba : key b ≤ key a := by
        have := mt hb.mpr hnle
        omega
      refine List.Pairwise.cons ?_ (ih hl.2 (fun c hc => h c (List.mem_cons_of_mem _ hc)))
      intro y hy
      rcases List.mem_cons.mp ((insertSorted_perm cmp a bs).mem_iff.mp hy) with h1 | h1
      · rw [h1]; exact hba
      · exact hl.1 y h1

theorem jsSort_pairwise {α : Type} (cmp : α → α → Option Int) (key : α → Int) (l : List α)
    (h : ∀ a ∈ l, ∀ b ∈ l, ((cmp a b).getD 0 ≤ 0 ↔ key a ≤ key b)) :
    (jsSort cmp l).Pairwise (fun x y => key x ≤ key y) := by
  induction l with
  | nil => simp [jsSort]
  | cons a as ih =>
    unfold jsSort
    apply insertSorted_pairwise
    · exact ih (fun x hx y hy => h x (List.mem_cons_of_mem _ hx) y (List.mem_cons_of_mem _ hy))
    · intro b hb
      exact h a (List.mem_cons_self _ _) b
        (List.mem_cons_of_mem _ ((jsSort_perm cmp as).mem_iff.mp hb))

/-- Sorting tasks with valid due dates by `byDueDate` puts them in
non-decreasing order of due date. -/
theorem sort_byDueDate_ordered (l : List Task) (hvalid : ∀ t ∈ l, t.dueDate ≠ none) :
    (jsSort Dashboard.byDueDate l).Pairwise
      (fun a b => ∀ x y, a.dueDate = some x → b.dueDate = some y → x ≤ y) := by
  have key := jsSort_pairwise Dashboard.byDueDate (fun t => t.dueDate.getD 0) l (by
    intro a ha b hb
    obtain ⟨x, hx⟩ := Option.ne_none_iff_exists'.mp (hvalid a ha)
    obtain ⟨y, hy⟩ := Option.ne_none_iff_exists'.mp (hvalid b hb)
    simp only [Dashboard.byDueDate, hx, hy, numSub, Option.getD_some]
    omega)
  refine key.imp ?_
  intro a b hab x y hx hy
  simpa [hx, hy] using hab

/-- C24: for a task list whose due dates are all valid, `activeTasks` is in
non-decreasing order of due date and rearranges exactly the tasks that are
neither completed nor overdue; the list `handleFilterChange` stores is in
non-decreasing order of due date as well, and `handleFilterChange` leaves the
task list as it was. -/
theorem activeTasks_sorted (clock : Clock) (tasks : List Task)
    (hvalid : ∀ t ∈ tasks, t.dueDate ≠ none) :
    (Dashboard.activeTasks clock tasks).Pairwise
        (fun a b => ∀ x y, a.dueDate = some x → b.dueDate = some y → x ≤ y) ∧
      (Dashboard.activeTasks clock tasks).Perm
        (tasks.filter
          (fun task => task.status != "Completed" && !Dashboard.isTaskOverdue clock task)) ∧
      (∀ (filter filterType : String) (s : Dashboard.State), s.tasks = tasks →
        (Dashboard.handleFilterChange clock filter filterType s).filteredActiveTasks.Pairwise
            (fun a b => ∀ x y, a.dueDate = some x → b.dueDate = some y → x ≤ y) ∧
          (Dashboard.handleFilterChange clock filter filterType s).tasks = tasks) := by
  have hactive : ∀ t ∈ Dashboard.activeTasks clock tasks, t.dueDate ≠ none := by
    intro t ht
    exact hvalid t (List.mem_filter.mp ((jsSort_perm _ _).mem_iff.mp ht)).1
  refine ⟨?_, jsSort_perm _ _, ?_⟩
  · exact sort_byDueDate_ordered _ (fun t ht => hvalid t (List.mem_filter.mp ht).1)
  · intro filter filterType s hs
    subst hs
    unfold Dashboard.handleFilterChange
    split
    · exact ⟨List.Pairwise.nil, rfl⟩
    · refine ⟨?_, rfl⟩
      simp only
      apply sort_byDueDate_ordered
      intro t ht
      split at ht
      · exact hactive t (List.mem_filter.mp ht).1
      · split at ht
        · exact hactive t (List.mem_filter.mp ht).1
        · simp at ht

/-- Witness of C24: two pending tasks, the later one first in the list. -/
theorem activeTasks_sorted_witness :
    (Dashboard.activeTasks { now := 1705320000000, tzMinutes := 0 }
        [{ _id := "t1", title := "a", description := "", dueDate := some 1900000000000,
           priority := "Low", status := "Pending" },
         { _id := "t2", title := "b", description := "", dueDate := some 1800000000000,
           priority := "Low", status := "Pending" }]).Pairwise
      (fun a b => ∀ x y, a.dueDate = some x → b.dueDate = some y → x ≤ y) :=
  (activeTasks_sorted { now := 1705320000000, tzMinutes := 0 }
    [{ _id := "t1", title := "a", description := "", dueDate := some 1900000000000,
       priority := "Low", status := "Pending" },
     { _id := "t2", title := "b", description := "", dueDate := some 1800000000000,
       priority := "Low", status := "Pending" }] (by decide)).1

/-- C25 (the code at the failing input): the panel is opened, the filter
'Pending' is selected while the list holds the pending task `t1`, and then `t1`
is deleted; the task list is empty, and the displayed list still holds `t1`. -/
theorem display_keeps_deleted_task :
    (Dashboard.run { now := 1705320000000, tzMinutes := 0 }
        (Dashboard.State.initial
          [{ _id := "t1", title := "a", description := "", dueDate := some 1900000000000,
             priority := "Low", status := "Pending" }])
        [Dashboard.Event.toggleFilters, Dashboard.Event.selectFilter "Pending",
         Dashboard.Event.tasksChanged
          (useTasks.deleteTask true true "t1"
            (Except.ok { success := true, message := none, data := () })
            { tasks := [{ _id := "t1", title := "a", description := "", dueDate := some 1900000000000,
                          priority := "Low", status := "Pending" }],
              loading := false, error := none }).1.tasks]).tasks = [] ∧
      Dashboard.displayTasks { now := 1705320000000, tzMinutes := 0 }
        (Dashboard.run { now := 1705320000000, tzMinutes := 0 }
          (Dashboard.State.initial
            [{ _id := "t1", title := "a", description := "", dueDate := some 1900000000000,
               priority := "Low", status := "Pending" }])
          [Dashboard.Event.toggleFilters, Dashboard.Event.selectFilter "Pending",
           Dashboard.Event.tasksChanged
            (useTasks.deleteTask true true "t1"
              (Except.ok { success := true, message := none, data := () })
              { tasks := [{ _id := "t1", title := "a", description := "",
                            dueDate := some 1900000000000, priority := "Low",
                            status := "Pending" }],
                loading := false, error := none }).1.tasks]) =
        [{ _id := "t1", title := "a", description := "", dueDate := some 1900000000000,
           priority := "Low", status := "Pending" }] := by
  decide

/-! ### Update and delete of one task, forms, notifications, logout -/

/-- C26 (counterexample): the list holds `t1`; the delete response is applied
first and a successful update response for `t1` last; the final list is empty,
so `t1` is not present with the updated fields. -/
theorem update_after_delete_leaves_task_absent :
    (useTasks.updateTask true "t1"
        (Except.ok { success := true, message := none,
                     data := { _id := "t1", title := "b", description := "", dueDate := some 0,
                               priority := "Low", status := "Completed" } })
        (useTasks.deleteTask true true "t1"
          (Except.ok { success := true, message := none, data := () })
          { tasks := [{ _id := "t1", title := "a", description := "", dueDate := some 0,
                        priority := "Low", status := "Pending" }],
            loading := false, error := none }).1).1.tasks = [] := by
  decide

/-- C26 (amended): when a successful update response (carrying the task's id)
and a successful delete response for the same id are both applied, the final
list is the prior list without the elements of that id, whichever of the two
is applied last; in both orders no element with that id is left. -/
theorem delete_wins_in_both_orders (s : useTasks.State) (taskId : String)
    (updateReply : Except Thrown (ApiReply Task)) (deleteReply : Except Thrown (ApiReply Unit))
    (updatedTask : Task) (r : ApiReply Unit)
    (hu : taskService.updateTask updateReply = Except.ok updatedTask)
    (hd : taskService.deleteTask deleteReply = Except.ok r)
    (hid : updatedTask._id = taskId) :
    (useTasks.deleteTask true true taskId deleteReply
          (useTasks.updateTask true taskId updateReply s).1).1.tasks =
        s.tasks.filter (fun task => task._id != taskId) ∧
      (useTasks.updateTask true taskId updateReply
          (useTasks.deleteTask true true taskId deleteReply s).1).1.tasks =
        s.tasks.filter (fun task => task._id != taskId) ∧
      ∀ task ∈ s.tasks.filter (fun task => task._id != taskId), task._id ≠ taskId := by
  refine ⟨?_, ?_, ?_⟩
  · simp only [useTasks.deleteTask, useTasks.updateTask, useTasks.begin, hu, hd, Bool.not_true,
      Bool.false_eq_true, if_false, List.filter_map]
    rw [List.map_congr_left (g := id)]
    · simp only [List.map_id]
      apply List.filter_congr
      intro t _
      by_cases h : t._id = taskId <;> simp [h, hid]
    · intro t ht
      have := (List.mem_filter.mp ht).2
      by_cases h : t._id = taskId
      · simp [h, hid] at this
      · simp [h]
  · simp only [useTasks.deleteTask, useTasks.updateTask, useTasks.begin, hu, hd, Bool.not_true,
      Bool.false_eq_true, if_false]
    conv_rhs => rw [← List.map_id (s.tasks.filter (fun task => task._id != taskId))]
    apply List.map_congr_left
    intro t ht
    have := (List.mem_filter.mp ht).2
    have hne : t._id ≠ taskId := by simpa using this
    simp [hne]
  · intro t ht
    simpa using (List.mem_filter.mp ht).2

/-- Witness of C26 (amended): the second of two tasks is updated and deleted. -/
theorem delete_wins_in_both_orders_witness :
    (useTasks.deleteTask true true "t2"
        (Except.ok { success := true, message := none, data := () })
        (useTasks.updateTask true "t2"
          (Except.ok { success := true, message := none,
                       data := { _id := "t2", title := "c", description := "", dueDate := some 0,
                                 priority := "Low", status := "Completed" } })
          { tasks := [{ _id := "t1", title := "a", description := "", dueDate := some 0,
                        priority := "High", status := "Pending" },
                      { _id := "t2", title := "b", description := "", dueDate := some 0,
                        priority := "Low", status := "Pending" }],
            loading := false, error := none }).1).1.tasks =
      List.filter (fun task => task._id != "t2")
        [{ _id := "t1", title := "a", description := "", dueDate := some 0, priority := "High",
           status := "Pending" },
         { _id := "t2", title := "b", description := "", dueDate := some 0, priority := "Low",
           status := "Pending" }] :=
  (delete_wins_in_both_orders
    { tasks := [{ _id := "t1", title := "a", description := "", dueDate := some 0,
                  priority := "High", status := "Pending" },
                { _id := "t2", title := "b", description := "", dueDate := some 0,
                  priority := "Low", status := "Pending" }],
      loading := false, error := none } "t2"
    (Except.ok { success := true, message := none,
                 data := { _id := "t2", title := "c", description := "", dueDate := some 0,
                           priority := "Low", status := "Completed" } })
    (Except.ok { success := true, message := none, data := () })
    { _id := "t2", title := "c", description := "", dueDate := some 0, priority := "Low",
      status := "Completed" }
    { success := true, message := none, data := () } rfl rfl rfl).1

theorem mem_jsTrim (s : String) (c : Char) (h : c ∈ jsTrim s) : c ∈ s.data := by
  unfold jsTrim at h
  rw [List.mem_reverse] at h
  have h1 := (List.dropWhile_sublist isJsWhitespace).subset h
  rw [List.mem_reverse] at h1
  exact (List.dropWhile_sublist isJsWhitespace).subset h1

theorem cleanTitle_no_digit (title : String) : hasNumbers (cleanTitle title) = false := by
  unfold hasNumbers cleanTitle
  rw [List.any_eq_false]
  intro c hc
  have h1 := mem_jsTrim _ c hc
  have h2 := (List.mem_filter.mp h1).2
  simp only [Bool.not_eq_true', Bool.and_eq_false_iff, decide_eq_false_iff_not] at h2
  simp only [Bool.and_eq_true, decide_eq_true_eq, not_and]
  intro h48
  omega

theorem setField_title (name value : String) (formData : FormData)
    (hform : hasNumbers formData.title = false)
    (hvalue : name = "title" → hasNumbers value = false) :
    hasNumbers (setField name value formData).title = false := by
  unfold setField
  by_cases h : name = "title"
  · simp [h, hvalue h]
  · simp only [h, if_false]
    repeat' split
    all_goals exact hform

theorem modal_step_no_digit (dateText : Task → String) (formData : FormData)
    (event : TaskFormModal.Event) (h : hasNumbers formData.title = false) :
    hasNumbers (TaskFormModal.step dateText formData event).title = false := by
  cases event with
  | change name value =>
    simp only [TaskFormModal.step, TaskFormModal.handleInputChange]
    split
    · exact h
    · next hc =>
      apply setField_title _ _ _ h
      intro hn
      simpa [hn] using hc
  | load editingTask =>
    cases editingTask with
    | none => rfl
    | some t => exact cleanTitle_no_digit t.title
  | reset => rfl
  | close => rfl

theorem form_step_no_digit (dateText : Task → String) (formData : FormData)
    (event : TaskForm.Event) (h : hasNumbers formData.title = false) :
    hasNumbers (TaskForm.step dateText formData event).title = false := by
  cases event with
  | change name value =>
    simp only [TaskForm.step, TaskForm.handleInputChange]
    split
    · exact h
    · next hc =>
      apply setField_title _ _ _ h
      intro hn
      simpa [hn] using hc
  | load editingTask =>
    cases editingTask with
    | none => rfl
    | some t => exact cleanTitle_no_digit t.title
  | reset => rfl

theorem modal_foldl_no_digit (dateText : Task → String) (events : List TaskFormModal.Event)
    (formData : FormData) (h : hasNumbers formData.title = false) :
    hasNumbers (events.foldl (TaskFormModal.step dateText) formData).title = false := by
  induction events generalizing formData with
  | nil => exact h
  | cons ev evs ih => exact ih _ (modal_step_no_digit dateText formData ev h)

theorem form_foldl_no_digit (dateText : Task → String) (events : List TaskForm.Event)
    (formData : FormData) (h : hasNumbers formData.title = false) :
    hasNumbers (events.foldl (TaskForm.step dateText) formData).title = false := by
  induction events generalizing formData with
  | nil => exact h
  | cons ev evs ih => exact ih _ (form_step_no_digit dateText formData ev h)

/-- C27: in `TaskFormModal` and in `TaskForm`, after every sequence of events
from the initial empty form the title holds no digit, and whatever
`handleSubmit` hands to `onSubmit` then has a title that holds no digit and is
not empty. -/
theorem form_title_never_has_digit (dateText : Task → String)
    (modalEvents : List TaskFormModal.Event) (formEvents : List TaskForm.Event) :
    hasNumbers (TaskFormModal.run dateText modalEvents).title = false ∧
      hasNumbers (TaskForm.run dateText formEvents).title = false ∧
      (∀ d, TaskFormModal.handleSubmit (TaskFormModal.run dateText modalEvents) = some d →
        hasNumbers d.title = false ∧ d.title ≠ "") ∧
      (∀ d, TaskForm.handleSubmit (TaskForm.run dateText formEvents) = some d →
        hasNumbers d.title = false ∧ d.title ≠ "") := by
  have h1 := modal_foldl_no_digit dateText modalEvents emptyForm rfl
  have h2 := form_foldl_no_digit dateText formEvents emptyForm rfl
  refine ⟨h1, h2, ?_, ?_⟩
  · intro d hd
    unfold TaskFormModal.handleSubmit at hd
    split at hd
    · exact absurd hd (by simp)
    · next hne =>
      split at hd
      · exact absurd hd (by simp)
      · have hd' : TaskFormModal.run dateText modalEvents = d := by simpa using hd
        rw [← hd']
        refine ⟨h1, ?_⟩
        intro he
        simp [he] at hne
  · intro d hd
    unfold TaskForm.handleSubmit at hd
    split at hd
    · exact absurd hd (by simp)
    · next hne =>
      split at hd
      · exact absurd hd (by simp)
      · have hd' : TaskForm.run dateText formEvents = d := by simpa using hd
        rw [← hd']
        refine ⟨h2, ?_⟩
        intro he
        simp [he] at hne

/-- C28 (the code at the failing input): when the user declines the
confirmation, `deleteTask` issues no request and leaves the state as it was,
and `onDelete` of `Dashboard` and of `Tasks` shows 'Task deleted successfully!'
with severity 'success' all the same. -/
theorem declined_delete_shows_success (httpMessage : String) (api : Bool) (taskId : String)
    (reply : Except Thrown (ApiReply Unit)) (s : useTasks.State) :
    (useTasks.deleteTask false api taskId reply s).1 = s ∧
      useTasks.issuesDeleteRequest false api = false ∧
      Dashboard.onDelete httpMessage (useTasks.deleteTask false api taskId reply s).2 =
        ("Task deleted successfully!", "success") ∧
      Tasks.onDelete httpMessage (useTasks.deleteTask false api taskId reply s).2 =
        ("Task deleted successfully!", "success") := by
  simp [useTasks.deleteTask, useTasks.issuesDeleteRequest, Dashboard.onDelete, Tasks.onDelete]

theorem logoutChain_all_401 (followed k : Nat) :
    AuthContext.logoutChain true (fun _ => 401) followed k = (followed, followed) := by
  induction followed generalizing k with
  | zero => rfl
  | succ n ih => simp [AuthContext.logoutChain, ih]

/-- C29 (the code at the failing input): with a token held and a server that
answers every request, POST /auth/logout included, with 401, one failed request
sets off a chain in which every `logout` call posts a logout request whose
response calls `logout` again: however many calls are followed, that many
`logout` calls and logout requests have been made, so for a bound of 2 there
are already two of each. -/
theorem logout_chain_never_ends (followed : Nat) :
    AuthContext.onResponseError true (fun _ => 401) followed 401 = (followed, followed) ∧
      AuthContext.onResponseError true (fun _ => 401) 2 401 = (2, 2) ∧
      AuthContext.onResponseError true (fun _ => 200) followed.succ 401 = (1, 1) := by
  refine ⟨?_, ?_, ?_⟩
  · simp [AuthContext.onResponseError, logoutChain_all_401]
  · simp [AuthContext.onResponseError, logoutChain_all_401]
  · simp [AuthContext.onResponseError, AuthContext.logoutChain]

end Frontend

end TaskManager
